import Mathlib

/-!
# 19box-discordbot: lifecycle coordinator and command handler

A shallow embedding of `internal/app/bot` (bot.go, command.go, ui.go) and of
`internal/jukebox/client.go` (notification types, unary calls, receive loop).

* Shared mutable state (`Bot`) is passed explicitly.
* Every call to a collaborator (chat platform, jukebox service) is appended to
  `World.calls`; the collaborator's answer is read from `Env`, indexed by the
  number of calls made before it, so every sequence of outcomes can be chosen.
* A nil-pointer dereference sets `World.panicked`; a panicked process does nothing
  further.
-/

namespace Bot19

/-! ## Generated wire types (`internal/gen/jukebox/v1`) -/

/-- Modelled from the spec: the generated package `internal/gen/jukebox/v1` is not
part of the source tree. Playback state of a track, "one of unspecified, started,
playing, other". -/
inductive TrackState where
  | TRACK_STATE_UNSPECIFIED
  | TRACK_STATE_STARTED
  | TRACK_STATE_PLAYING
  | TRACK_STATE_OTHER
  deriving DecidableEq, Repr

/-- Modelled from the spec: the generated package `internal/gen/jukebox/v1` is not
part of the source tree. State of a session snapshot; the zero value is what the
nil-safe getter returns for an absent snapshot. -/
inductive SessionState where
  | SESSION_STATE_UNSPECIFIED
  | SESSION_STATE_RUNNING
  | SESSION_STATE_TERMINATED
  | SESSION_STATE_OTHER
  deriving DecidableEq, Repr

/-- Modelled from the spec: the generated package `internal/gen/jukebox/v1` is not
part of the source tree. The fields are the ones the source reads. -/
structure SessionInfo where
  State : SessionState
  PlaylistName : String
  PlaylistUrl : String
  ScheduledEndTime : String
  Keywords : List String
  deriving DecidableEq, Repr

/-- Modelled from the spec: the generated package `internal/gen/jukebox/v1` is not
part of the source tree. The fields are the ones the source reads. -/
structure TrackInfo where
  TrackId : String
  Name : String
  Artists : List String
  Url : String
  AlbumArtUrl : String
  RequesterExternalUserId : String
  RequesterName : String
  State : TrackState
  deriving DecidableEq, Repr

/-! ## client.go: notifications -/

/-- The Go type is `int`; the five constants below are the values of the iota block. -/
abbrev NotificationType := Int

def NotificationTypeSessionStart : NotificationType := 0
def NotificationTypeSessionEnd : NotificationType := 1
def NotificationTypeTrackStart : NotificationType := 2
def NotificationTypeStreamClosed : NotificationType := 3
def NotificationTypeStreamError : NotificationType := 4

/-- The struct `Notification`: both payloads are pointers and may be nil; `Error` is
kept as its message (`none` is the nil error). -/
structure Notification where
  Type' : NotificationType
  Session : Option SessionInfo
  Track : Option TrackInfo
  Error : Option String
  deriving DecidableEq, Repr

/-! ## ui.go -/

structure MessageEmbedField where
  Name : String
  Value : String
  deriving DecidableEq, Repr

structure MessageEmbedFooter where
  Text : String
  IconURL : String
  deriving DecidableEq, Repr

structure MessageEmbed where
  Title : String
  Description : String
  URL : String
  Color : Nat
  Fields : List MessageEmbedField
  ThumbnailURL : String
  Footer : MessageEmbedFooter
  deriving DecidableEq, Repr

structure MessageSend where
  Content : String
  Embed : MessageEmbed
  deriving DecidableEq, Repr

def spotifyColor : Nat := 0x1DB954

/-- The template `"🎵 session(%s)"`. -/
def msgSessionStartTitle (now : String) : String := "🎵 session(" ++ now ++ ")"

/-- The template `"🔊 セッションを開始しました。\n\n🔚: %s\n"`. -/
def msgSessionStartBody (sessionEndTime : String) : String :=
  "🔊 セッションを開始しました。\n\n🔚: " ++ sessionEndTime ++ "\n"

def msgSessionEndBody : String :=
  "🔊 セッションは終了しました。\n\n本日のプレイリストはコチラです。\n"

/-- The template `"🎙️ nowplaying「%s」%s\n\n%s\n"`. -/
def msgNowPlayingBody (name artists requester : String) : String :=
  "🎙️ nowplaying「" ++ name ++ "」" ++ artists ++ "\n\n" ++ requester ++ "\n"

/-- The template `"selected by <@%s>"`. -/
def msgRequesterUser (id : String) : String := "selected by <@" ++ id ++ ">"

/-- The template `"selected by %s"`. -/
def msgRequesterName (name : String) : String := "selected by " ++ name

def msgInternalError : String := "受付に失敗しました(内部エラー)"
def msgTimeUndetermined : String := "終了時間未定"

/-- The template `"%s終了予定"`. -/
def msgTimeScheduled (hhmm : String) : String := hhmm ++ "終了予定"

def embedPlaylistTitle (s : String) : String := "🎶 " ++ s
def embedTrackTitle (s : String) : String := "🎵 " ++ s
/-- The template `embedArtistPrefix = "🎤 %s"`. -/
def embedArtistLead (s : String) : String := "🎤 " ++ s
def embedKeywordField : String := "Keyword"

def spotifyFooter : MessageEmbedFooter :=
  { Text := "Spotify",
    IconURL := "https://storage.googleapis.com/pr-newsroom-wp/1/2023/05/Spotify_Primary_Logo_RGB_Green.png" }

/-- Two decimal digits, as the layout elements `15` and `04` print them. -/
def twoDigits (n : Nat) : String :=
  (if n < 10 then "0" else "") ++ toString n

/-- The layout `timeFormatDisplay = "15:04"` applied to a local wall-clock time given
as seconds since the epoch already shifted by the zone offset. -/
def timeFormatDisplay (localSeconds : Int) : String :=
  let secOfDay := (localSeconds % 86400).toNat
  twoDigits (secOfDay / 3600) ++ ":" ++ twoDigits (secOfDay % 3600 / 60)

/-- The Go runtime and the two remote collaborators. The standard library's
`time.Parse(time.RFC3339, _)` and the local zone are parameters; every remote call
answers according to the number of remote calls made before it. -/
structure Env where
  /-- The value of `time.Parse(time.RFC3339, s)`: seconds since the epoch, `none` on error. -/
  timeParseRFC3339 : String → Option Int
  /-- Offset of the local zone, in seconds, at an instant. -/
  zoneOffset : Int → Int
  /-- The value of `time.Now().Format(timeFormatTopicTitle)` at a point of the run. -/
  nowTopicTitle : Nat → String
  /-- The answer of `ForumThreadStartComplex`: the id of the thread, `none` on error. -/
  ForumThreadStartComplex : Nat → Option String
  /-- The answer of `ChannelMessageSendComplex`: `false` on error. -/
  ChannelMessageSendComplex : Nat → Bool
  /-- The answer of `InteractionRespond` (the deferred acknowledgement): `false` on error. -/
  InteractionRespond : Nat → Bool
  /-- The answer of `InteractionResponseEdit`: `false` on error. -/
  InteractionResponseEdit : Nat → Bool
  /-- The answer of the jukebox `Join`: the listener id, `none` on error. -/
  Join : Nat → Option String
  /-- The answer of the jukebox `RequestTrack`: success, message, code; `none` on error. -/
  Request : Nat → Option (Bool × String × String)

def formatSessionEnd (E : Env) (endTime : String) : String :=
  if endTime = "" then msgTimeUndetermined
  else
    match E.timeParseRFC3339 endTime with
    | none => msgTimeUndetermined
    | some t => msgTimeScheduled (timeFormatDisplay (t + E.zoneOffset t))

def createKeywordField (keywords : String) : List MessageEmbedField :=
  if keywords = "" then []
  else [{ Name := embedKeywordField, Value := keywords }]

def createSessionMessage (content : String) (sessionInfo : SessionInfo)
    (thumbnailURL : String) : MessageSend :=
  let fields := createKeywordField (String.intercalate ", " sessionInfo.Keywords)
  { Content := content,
    Embed :=
      { Title := embedPlaylistTitle sessionInfo.PlaylistName,
        Description := "",
        URL := sessionInfo.PlaylistUrl,
        Color := spotifyColor,
        Fields := fields,
        ThumbnailURL := thumbnailURL,
        Footer := spotifyFooter } }

def createNowPlayingMessage (trackInfo : TrackInfo) (sessionInfo : SessionInfo) : MessageSend :=
  let artists := String.intercalate ", " trackInfo.Artists
  let requester :=
    if trackInfo.RequesterExternalUserId ≠ "" then
      msgRequesterUser trackInfo.RequesterExternalUserId
    else
      msgRequesterName trackInfo.RequesterName
  let content := msgNowPlayingBody trackInfo.Name artists requester
  let fields := createKeywordField (String.intercalate ", " sessionInfo.Keywords)
  { Content := content,
    Embed :=
      { Title := embedTrackTitle trackInfo.Name,
        Description := embedArtistLead artists,
        URL := trackInfo.Url,
        Color := spotifyColor,
        Fields := fields,
        ThumbnailURL := trackInfo.AlbumArtUrl,
        Footer := spotifyFooter } }

/-! ## Concurrent maps (`xsync.MapOf[string, V]`) -/

/-- A map with string keys as an association list; a key occurs at most once when
only the operations below are used. -/
abbrev MapOf (V : Type) := List (String × V)

namespace MapOf

def Load {V : Type} (m : MapOf V) (key : String) : Option V :=
  match m with
  | [] => none
  | (k, v) :: rest => if k = key then some v else Load rest key

def Store {V : Type} (m : MapOf V) (key : String) (value : V) : MapOf V :=
  match m with
  | [] => [(key, value)]
  | (k, v) :: rest => if k = key then (k, value) :: rest else (k, v) :: Store rest key value

/-- The atomic check-and-set: the value now in the map, whether it was there before,
and the map afterwards. -/
def LoadOrStore {V : Type} (m : MapOf V) (key : String) (value : V) : V × Bool × MapOf V :=
  match Load m key with
  | some v => (v, true, m)
  | none => (value, false, Store m key value)

def Clear {V : Type} (_m : MapOf V) : MapOf V := []

end MapOf

/-! ## bot.go -/

structure DiscordBotConfig where
  Token : String
  ForumID : String
  GuildID : String
  deriving DecidableEq, Repr

/-- The mutable fields of the struct `Bot`. `topicID` is the atomic pointer (nil at
start); `errCh` lists the errors handed to the error channel. -/
structure Bot where
  config : DiscordBotConfig
  guildIconURL : String
  topicID : Option String
  tokens : MapOf String
  postedTracks : MapOf Bool
  errCh : List (Option String)
  deriving DecidableEq, Repr

/-- Which statement of the source issued a `sendToTopic`: instrumentation only, the
platform does not see it. -/
inductive SendOrigin where
  | nowPlaying (trackID : String)
  | sessionEnd
  deriving DecidableEq, Repr

/-- One call to a collaborator, with its arguments. -/
inductive Call where
  | ForumThreadStartComplex (forumID title : String) (message : MessageSend)
  | ChannelMessageSendComplex (origin : SendOrigin) (topicID : String) (message : MessageSend)
  | InteractionRespond (interactionID : String)
  | InteractionResponseEdit (interactionID content : String)
  | Join (displayName externalUserId : String)
  | Request (listenerId trackId : String)
  deriving DecidableEq, Repr

/-- The process: the bot, the calls made so far (oldest first), and whether a
goroutine has panicked. -/
structure World where
  bot : Bot
  calls : List Call
  panicked : Bool
  deriving DecidableEq, Repr

/-- The state `NewBot` returns, before any event. -/
def NewBot (cfg : DiscordBotConfig) : World :=
  { bot :=
      { config := cfg, guildIconURL := "", topicID := none, tokens := [],
        postedTracks := [], errCh := [] },
    calls := [],
    panicked := false }

def getTopicID (b : Bot) : String :=
  match b.topicID with
  | some p => p
  | none => ""

def setTopicID (b : Bot) (id : String) : Bot :=
  { b with topicID := some id }

/-- The error result (`none` is nil) and the world afterwards. -/
def createForumTopic (E : Env) (title : String) (message : MessageSend) (w : World) :
    Option String × World :=
  let k := w.calls.length
  let w1 := { w with calls := w.calls ++ [Call.ForumThreadStartComplex w.bot.config.ForumID title message] }
  match E.ForumThreadStartComplex k with
  | none => (some "ForumThreadStartComplex failed", w1)
  | some threadID => (none, { w1 with bot := setTopicID w1.bot threadID })

def sendToTopic (E : Env) (origin : SendOrigin) (message : MessageSend) (w : World) :
    Option String × World :=
  let topicID := getTopicID w.bot
  if topicID = "" then (some "topicID is not set", w)
  else
    let k := w.calls.length
    let w1 := { w with calls := w.calls ++ [Call.ChannelMessageSendComplex origin topicID message] }
    if E.ChannelMessageSendComplex k then (none, w1)
    else (some "ChannelMessageSendComplex failed", w1)

/-- The nil dereference of an absent payload. -/
def panic (w : World) : World := { w with panicked := true }

/-- The session payload is a parameter that may be nil: `createNowPlayingMessage`
reads `sessionInfo.Keywords` after the dedup marker is set. -/
def postNowplaying (E : Env) (trackInfo : TrackInfo) (sessionInfo : Option SessionInfo)
    (w : World) : Option String × World :=
  let trackID := trackInfo.TrackId
  let (_, loaded, posted) := MapOf.LoadOrStore w.bot.postedTracks trackID true
  let w1 := { w with bot := { w.bot with postedTracks := posted } }
  if loaded then (none, w1)
  else
    match sessionInfo with
    | none => (none, panic w1)
    | some si =>
      let msg := createNowPlayingMessage trackInfo si
      sendToTopic E (SendOrigin.nowPlaying trackID) msg w1

def handleSessionStart (E : Env) (notification : Notification) (w : World) : World :=
  if getTopicID w.bot ≠ "" then w
  else
    let now := E.nowTopicTitle w.calls.length
    let topicTitle := msgSessionStartTitle now
    match notification.Session with
    | none => panic w
    | some sessionInfo =>
      let sessionEndTime := formatSessionEnd E sessionInfo.ScheduledEndTime
      let content := msgSessionStartBody sessionEndTime
      let topicMessage := createSessionMessage content sessionInfo w.bot.guildIconURL
      let w1 := (createForumTopic E topicTitle topicMessage w).2
      match notification.Track with
      | none => w1
      | some trackInfo =>
        if trackInfo.State = TrackState.TRACK_STATE_STARTED
            ∨ trackInfo.State = TrackState.TRACK_STATE_PLAYING then
          (postNowplaying E trackInfo (some sessionInfo) w1).2
        else w1

def handleSessionEnd (E : Env) (notification : Notification) (w : World) : World :=
  if getTopicID w.bot = "" then w
  else
    match notification.Session with
    | none => panic w
    | some sessionInfo =>
      let topicMessage := createSessionMessage msgSessionEndBody sessionInfo w.bot.guildIconURL
      let w1 := (sendToTopic E SendOrigin.sessionEnd topicMessage w).2
      { w1 with bot := { setTopicID w1.bot "" with postedTracks := MapOf.Clear w1.bot.postedTracks } }

def handleTrackStart (E : Env) (notification : Notification) (w : World) : World :=
  match notification.Track with
  | none => w
  | some trackInfo => (postNowplaying E trackInfo notification.Session w).2

/-- The send on `errCh`. The channel holds one error and `main` takes it out; a send
that would block ends the loop early, which is a run over fewer notifications. -/
def handleError (err : Option String) (w : World) : World :=
  { w with bot := { w.bot with errCh := w.bot.errCh ++ [err] } }

/-- One iteration of the loop of `receiveNotifications`: the switch on the type. A
panicked process handles nothing. -/
def receiveNotification (E : Env) (w : World) (notification : Notification) : World :=
  if w.panicked then w
  else if notification.Type' = NotificationTypeSessionStart then handleSessionStart E notification w
  else if notification.Type' = NotificationTypeSessionEnd then handleSessionEnd E notification w
  else if notification.Type' = NotificationTypeTrackStart then handleTrackStart E notification w
  else if notification.Type' = NotificationTypeStreamClosed
      ∨ notification.Type' = NotificationTypeStreamError then handleError notification.Error w
  else w

/-- The loop of `receiveNotifications` over the notifications it dequeues, in order,
until the context is cancelled or the channel is closed. -/
def receiveNotifications (E : Env) (w : World) (notifications : List Notification) : World :=
  notifications.foldl (receiveNotification E) w

/-! ## client.go: the two unary calls -/

/-- The method `Client.Join`: the listener id, or `none` for the wrapped error. -/
def ClientJoin (E : Env) (displayName externalUserId : String) (w : World) :
    Option String × World :=
  let k := w.calls.length
  let w1 := { w with calls := w.calls ++ [Call.Join displayName externalUserId] }
  match E.Join k with
  | none => (none, w1)
  | some listenerId => (some listenerId, w1)

/-- The method `Client.Request`: success, message and code, or `none` for the wrapped
error. -/
def ClientRequest (E : Env) (listenerId trackId : String) (w : World) :
    Option (Bool × String × String) × World :=
  let k := w.calls.length
  let w1 := { w with calls := w.calls ++ [Call.Request listenerId trackId] }
  match E.Request k with
  | none => (none, w1)
  | some r => (some r, w1)

/-! ## command.go -/

def cmdRequestName : String := "req"

/-- The chat platform's user; `DisplayName` is the library's: the global name when
there is one, the user name otherwise. -/
structure User where
  ID : String
  Username : String
  GlobalName : String
  deriving DecidableEq, Repr

def User.DisplayName (u : User) : String :=
  if u.GlobalName ≠ "" then u.GlobalName else u.Username

structure Member where
  User : Option User
  deriving DecidableEq, Repr

/-- One option of a command invocation. `Value` is what `StringValue()` returns: the
command declares its only option with the string type. -/
structure ApplicationCommandInteractionDataOption where
  Name : String
  Value : String
  deriving DecidableEq, Repr

structure ApplicationCommandInteractionData where
  Name : String
  Options : List ApplicationCommandInteractionDataOption
  deriving DecidableEq, Repr

/-- An application-command interaction (the only kind the bot registers). -/
structure InteractionCreate where
  ID : String
  User : Option User
  Member : Option Member
  Data : ApplicationCommandInteractionData
  deriving DecidableEq, Repr

def responseUpdate (_E : Env) (i : InteractionCreate) (content : String) (w : World) : World :=
  { w with calls := w.calls ++ [Call.InteractionResponseEdit i.ID content] }

/-- Lines 82-90 of `requestTrack`: user id and display name of the caller, both empty
when neither `User` nor `Member.User` is set. -/
def callerOf (i : InteractionCreate) : String × String :=
  match i.User with
  | some u => (u.ID, u.DisplayName)
  | none =>
    match i.Member with
    | some m =>
      match m.User with
      | some u => (u.ID, u.DisplayName)
      | none => ("", "")
    | none => ("", "")

/-- Lines 129-139 of `requestTrack`: the request with the resolved token and the final
response. -/
def requestTrackForward (E : Env) (i : InteractionCreate) (token trackURL : String)
    (w : World) : World :=
  match ClientRequest E token trackURL w with
  | (none, w1) => responseUpdate E i msgInternalError w1
  | (some (_, responseMessage, _), w1) => responseUpdate E i responseMessage w1

/-- One execution of `requestTrack`, run from start to end without another goroutine
in between. -/
def requestTrack (E : Env) (i : InteractionCreate) (w : World) : World :=
  let (userID, displayName) := callerOf i
  if userID = "" then responseUpdate E i msgInternalError w
  else
    match i.Data.Options with
    | [] => responseUpdate E i msgInternalError w
    | o :: _ =>
      let trackURL := o.Value
      match MapOf.Load w.bot.tokens userID with
      | some token => requestTrackForward E i token trackURL w
      | none =>
        match ClientJoin E displayName userID w with
        | (none, w1) => responseUpdate E i msgInternalError w1
        | (some listenerId, w1) =>
          let token := listenerId
          let w2 := { w1 with bot := { w1.bot with tokens := MapOf.Store w1.bot.tokens userID token } }
          requestTrackForward E i token trackURL w2

/-- The handler `handleCommand`, with the goroutine it starts run at once. -/
def handleCommand (E : Env) (w : World) (i : InteractionCreate) : World :=
  if w.panicked then w
  else if i.Data.Name ≠ cmdRequestName then w
  else
    let k := w.calls.length
    let w1 := { w with calls := w.calls ++ [Call.InteractionRespond i.ID] }
    if E.InteractionRespond k then requestTrack E i w1 else w1

/-- Executions of `requestTrack` one after another. -/
def requestTrackAll (E : Env) (w : World) (is : List InteractionCreate) : World :=
  is.foldl (fun w i => requestTrack E i w) w

/-! ### `requestTrack` as atomic steps

Each step is one access to shared state or one remote call; between two steps of one
execution another goroutine may run. -/

/-- Where one execution of `requestTrack` stands, with its local variables. -/
inductive Pc where
  /-- Before `b.tokens.Load` (line 110). -/
  | start
  /-- Before `b.client.Join` (line 118). -/
  | join (userID displayName trackURL : String)
  /-- Before `b.tokens.Store` (line 126). -/
  | store (userID token trackURL : String)
  /-- Before `b.client.Request` (line 131). -/
  | request (token trackURL : String)
  /-- Before the final `responseUpdate`. -/
  | respond (content : String)
  | done
  deriving DecidableEq, Repr

def stepTask (E : Env) (i : InteractionCreate) : Pc → World → Pc × World
  | Pc.start, w =>
    let (userID, displayName) := callerOf i
    if userID = "" then (Pc.respond msgInternalError, w)
    else
      match i.Data.Options with
      | [] => (Pc.respond msgInternalError, w)
      | o :: _ =>
        match MapOf.Load w.bot.tokens userID with
        | some token => (Pc.request token o.Value, w)
        | none => (Pc.join userID displayName o.Value, w)
  | Pc.join userID displayName trackURL, w =>
    match ClientJoin E displayName userID w with
    | (none, w1) => (Pc.respond msgInternalError, w1)
    | (some listenerId, w1) => (Pc.store userID listenerId trackURL, w1)
  | Pc.store userID token trackURL, w =>
    (Pc.request token trackURL,
      { w with bot := { w.bot with tokens := MapOf.Store w.bot.tokens userID token } })
  | Pc.request token trackURL, w =>
    match ClientRequest E token trackURL w with
    | (none, w1) => (Pc.respond msgInternalError, w1)
    | (some (_, responseMessage, _), w1) => (Pc.respond responseMessage, w1)
  | Pc.respond content, w => (Pc.done, responseUpdate E i content w)
  | Pc.done, w => (Pc.done, w)

/-- One execution alone, for a number of steps. -/
def runTask (E : Env) (i : InteractionCreate) : Nat → Pc × World → Pc × World
  | 0, s => s
  | k + 1, s => runTask E i k (stepTask E i s.1 s.2)

/-- Two executions and the shared world. -/
structure Pair where
  pcA : Pc
  pcB : Pc
  world : World
  deriving DecidableEq, Repr

/-- Two executions interleaved: `true` lets the first take its next step, `false` the
second. -/
def runSchedule (E : Env) (iA iB : InteractionCreate) : List Bool → Pair → Pair
  | [], s => s
  | true :: rest, s =>
    let r := stepTask E iA s.pcA s.world
    runSchedule E iA iB rest { s with pcA := r.1, world := r.2 }
  | false :: rest, s =>
    let r := stepTask E iB s.pcB s.world
    runSchedule E iA iB rest { s with pcB := r.1, world := r.2 }

/-! ## Observations on a run -/

/-- A topic-creation call. -/
def isCreateTopic : Call → Bool
  | Call.ForumThreadStartComplex _ _ _ => true
  | _ => false

/-- A now-playing send for track `id`. -/
def isNowPlayingSend (id : String) : Call → Bool
  | Call.ChannelMessageSendComplex (SendOrigin.nowPlaying t) _ _ => decide (t = id)
  | _ => false

/-- The end-of-session send. -/
def isClosingSend : Call → Bool
  | Call.ChannelMessageSendComplex SendOrigin.sessionEnd _ _ => true
  | _ => false

def isJoin : Call → Bool
  | Call.Join _ _ => true
  | _ => false

def isRequest : Call → Bool
  | Call.Request _ _ => true
  | _ => false

/-- The text `sub` occurs in `s`. -/
def containsText (s sub : String) : Prop := sub.data <:+: s.data

/-- The track id carries the dedup marker. -/
def isPosted (w : World) (id : String) : Bool :=
  (MapOf.Load w.bot.postedTracks id).isSome

/-- The notification is a SessionStart that finds the coordinator Idle. -/
def startsWhileIdle (w : World) (n : Notification) : Bool :=
  !w.panicked && decide (n.Type' = NotificationTypeSessionStart) && decide (getTopicID w.bot = "")

/-- The notification is a SessionStart that moves the coordinator from Idle (empty
topic identifier) to ActiveSession (non-empty topic identifier). -/
def movesIdleToActive (E : Env) (w : World) (n : Notification) : Bool :=
  startsWhileIdle w n && decide (getTopicID (receiveNotification E w n).bot ≠ "")

/-- How many notifications of a run satisfy a predicate of the state they are
processed in. -/
def countSteps (E : Env) (p : World → Notification → Bool) : World → List Notification → Nat
  | _, [] => 0
  | w, n :: ns => (if p w n then 1 else 0) + countSteps E p (receiveNotification E w n) ns

/-! ## Measures on the call log -/

/-- Now-playing sends for `id` made so far. -/
def nowPlayingSends (id : String) (w : World) : Nat := w.calls.countP (isNowPlayingSend id)

/-- End-of-session sends made so far; one is made each time a SessionEnd closes an
active topic. -/
def closingSends (w : World) : Nat := w.calls.countP isClosingSend

/-- Topic-creation calls made so far. -/
def topicCreations (w : World) : Nat := w.calls.countP isCreateTopic

/-- Sends for `id` made so far, plus the one the dedup set still allows. -/
def sendBudget (id : String) (w : World) : Nat :=
  nowPlayingSends id w + (if isPosted w id then 0 else 1)

/-- The final response of a forwarded request: the message of the service, or the
internal-error text when the call failed. -/
def forwardResponse (E : Env) (k : Nat) : String :=
  match E.Request k with
  | none => msgInternalError
  | some r => r.2.1

/-! ## Notifications as the adapter builds them, and sample data -/

/-- A SessionStart carrying its session snapshot and, optionally, a track. -/
def sessionStartOf (s : SessionInfo) (t : Option TrackInfo) : Notification :=
  ⟨NotificationTypeSessionStart, some s, t, none⟩

/-- A TrackStart carrying its track and, optionally, a session snapshot. -/
def trackStartOf (s : Option SessionInfo) (t : TrackInfo) : Notification :=
  ⟨NotificationTypeTrackStart, s, some t, none⟩

/-- A SessionEnd carrying its session snapshot. -/
def sessionEndOf (s : SessionInfo) : Notification :=
  ⟨NotificationTypeSessionEnd, some s, none, none⟩

/-- Collaborators that always succeed. -/
def sampleEnv : Env :=
  { timeParseRFC3339 := fun _ => none,
    zoneOffset := fun _ => 0,
    nowTopicTitle := fun _ => "2024-01-01 10:00",
    ForumThreadStartComplex := fun _ => some "topic-1",
    ChannelMessageSendComplex := fun _ => true,
    InteractionRespond := fun _ => true,
    InteractionResponseEdit := fun _ => true,
    Join := fun _ => some "tok",
    Request := fun _ => some (true, "ok", "OK") }

/-- A chat platform that refuses every topic creation. -/
def failingCreateEnv : Env := { sampleEnv with ForumThreadStartComplex := fun _ => none }

/-- A jukebox service that issues a fresh listener id at each Join. -/
def twoListenerEnv : Env :=
  { sampleEnv with Join := fun k => if k = 0 then some "listener-0" else some "listener-1" }

def sampleSession : SessionInfo :=
  { State := SessionState.SESSION_STATE_RUNNING, PlaylistName := "pl", PlaylistUrl := "u",
    ScheduledEndTime := "", Keywords := ["chill", "study"] }

def sampleTrack : TrackInfo :=
  { TrackId := "t1", Name := "Song A", Artists := ["a"], Url := "", AlbumArtUrl := "",
    RequesterExternalUserId := "", RequesterName := "bob",
    State := TrackState.TRACK_STATE_STARTED }

def sampleConfig : DiscordBotConfig := { Token := "x", ForumID := "f", GuildID := "g" }

def sampleSessionStart : Notification := sessionStartOf sampleSession none

def sampleSessionStartWithTrack : Notification := sessionStartOf sampleSession (some sampleTrack)

def sampleTrackStart : Notification := trackStartOf (some sampleSession) sampleTrack

def sampleSessionEnd : Notification := sessionEndOf sampleSession

/-- The state after one SessionStart has created the topic `topic-1`. -/
def sampleActiveWorld : World :=
  receiveNotifications sampleEnv (NewBot sampleConfig) [sampleSessionStart]

def sampleUser : User := { ID := "u1", Username := "alice", GlobalName := "" }

def sampleCommandA : InteractionCreate :=
  { ID := "i1", User := none, Member := some { User := some sampleUser },
    Data := { Name := "req", Options := [{ Name := "url", Value := "https://open.spotify.com/track/1" }] } }

def sampleCommandB : InteractionCreate :=
  { ID := "i2", User := none, Member := some { User := some sampleUser },
    Data := { Name := "req", Options := [{ Name := "url", Value := "https://open.spotify.com/track/2" }] } }

/-- A command whose only option has the empty string as its value. -/
def sampleCommandEmptyValue : InteractionCreate :=
  { ID := "i3", User := some sampleUser, Member := none,
    Data := { Name := "req", Options := [{ Name := "url", Value := "" }] } }

/-- A command without any option. -/
def sampleCommandNoOption : InteractionCreate :=
  { ID := "i4", User := some sampleUser, Member := none,
    Data := { Name := "req", Options := [] } }

/-! ## client.go: the receive loop of `Subscribe` -/

namespace v1

/-- Modelled from the spec: the generated package `internal/gen/jukebox/v1` is not
part of the source tree. The kind of a wire event: initial state, changed state,
changed track, and whatever else the server may send. -/
inductive NotificationType where
  | NOTIFICATION_TYPE_UNSPECIFIED
  | NOTIFICATION_TYPE_INITIAL_STATE
  | NOTIFICATION_TYPE_CHANGE_STATE
  | NOTIFICATION_TYPE_CHANGE_TRACK
  | NOTIFICATION_TYPE_OTHER
  deriving DecidableEq, Repr

/-- Modelled from the spec: the generated package `internal/gen/jukebox/v1` is not
part of the source tree. A wire event: "event kind, optional session snapshot,
optional track snapshot", with its sequence number. -/
structure Notification where
  Type' : NotificationType
  SequenceNo : Nat
  SessionInfo : Option SessionInfo
  TrackInfo : Option TrackInfo
  deriving DecidableEq, Repr

end v1

/-- Modelled from the spec: the generated package `internal/gen/jukebox/v1` is not
part of the source tree. The nil-safe getter `GetState` of a session snapshot: the
zero value when the snapshot is absent. -/
def SessionInfo.GetState (s : Option SessionInfo) : SessionState :=
  match s with
  | none => SessionState.SESSION_STATE_UNSPECIFIED
  | some si => si.State

/-- Modelled from the spec: the generated package `internal/gen/jukebox/v1` is not
part of the source tree. The nil-safe getter `GetState` of a track snapshot: the zero
value when the snapshot is absent. -/
def TrackInfo.GetState (t : Option TrackInfo) : TrackState :=
  match t with
  | none => TrackState.TRACK_STATE_UNSPECIFIED
  | some ti => ti.State

/-- One iteration of the loop `for c.stream.Receive()` in `Subscribe`: the message
received and the channel `c.notifications` (oldest first) before and after. The
capacity of the channel only makes the loop wait; it is not modelled. -/
def SubscribeReceive (jukeboxNotification : v1.Notification) (notifications : List Notification) :
    List Notification :=
  let notificationType := jukeboxNotification.Type'
  let sessionState := SessionInfo.GetState jukeboxNotification.SessionInfo
  let trackState := TrackInfo.GetState jukeboxNotification.TrackInfo
  let notification : Notification :=
    { Type' := 0,
      Session := jukeboxNotification.SessionInfo,
      Track := jukeboxNotification.TrackInfo,
      Error := none }
  match notificationType with
  | v1.NotificationType.NOTIFICATION_TYPE_INITIAL_STATE
  | v1.NotificationType.NOTIFICATION_TYPE_CHANGE_STATE =>
    if sessionState = SessionState.SESSION_STATE_RUNNING then
      notifications ++ [{ notification with Type' := NotificationTypeSessionStart }]
    else if sessionState = SessionState.SESSION_STATE_TERMINATED then
      notifications ++ [{ notification with Type' := NotificationTypeSessionEnd }]
    else notifications
  | v1.NotificationType.NOTIFICATION_TYPE_CHANGE_TRACK =>
    if trackState = TrackState.TRACK_STATE_STARTED then
      notifications ++ [{ notification with Type' := NotificationTypeTrackStart }]
    else notifications
  | _ => notifications

/-- The goroutine of `Subscribe`: the messages of the stream in order, then the one
terminal notification, StreamError when the stream ended with an error and
StreamClosed otherwise. -/
def SubscribeLoop (messages : List v1.Notification) (streamErr : Option String)
    (notifications : List Notification) : List Notification :=
  let received := messages.foldl (fun q m => SubscribeReceive m q) notifications
  match streamErr with
  | some err =>
    received ++ [{ Type' := NotificationTypeStreamError, Session := none, Track := none,
                   Error := some ("error receiving notification: " ++ err) }]
  | none =>
    received ++ [{ Type' := NotificationTypeStreamClosed, Session := none, Track := none,
                   Error := some "stream closed" }]

/-! ## Further observations and sample data -/

/-- The notification is a SessionEnd that clears the dedup set: it is processed by a
live process while a topic is active, and it carries its session snapshot. -/
def clearsDedup (w : World) (n : Notification) : Bool :=
  !w.panicked && decide (n.Type' = NotificationTypeSessionEnd)
    && decide (getTopicID w.bot ≠ "") && n.Session.isSome

/-- The decimal digits of the hour and the minute of a local wall-clock time. -/
def clockDigits (localSeconds : Int) : List Char :=
  let secOfDay := (localSeconds % 86400).toNat
  [Nat.digitChar (secOfDay / 3600 / 10), Nat.digitChar (secOfDay / 3600 % 10), ':',
    Nat.digitChar (secOfDay % 3600 / 60 / 10), Nat.digitChar (secOfDay % 3600 / 60 % 10)]

/-- A runtime that parses one timestamp, half past ten in the morning UTC on the first
day of 2024, in a zone nine hours ahead. -/
def sampleClockEnv : Env :=
  { sampleEnv with
    timeParseRFC3339 := fun s => if s = "2024-01-01T10:30:00Z" then some 1704105000 else none,
    zoneOffset := fun _ => 32400 }

/-- A changed-track event whose track has started and which carries no session
snapshot. -/
def sampleWireTrackOnly : v1.Notification :=
  { Type' := v1.NotificationType.NOTIFICATION_TYPE_CHANGE_TRACK, SequenceNo := 7,
    SessionInfo := none, TrackInfo := some sampleTrack }

/-! ## Effect of the chat-platform operations -/

theorem sendToTopic_snd (E : Env) (o : SendOrigin) (m : MessageSend) (w : World) :
    (sendToTopic E o m w).2 =
      if getTopicID w.bot = "" then w
      else { w with calls := w.calls ++ [Call.ChannelMessageSendComplex o (getTopicID w.bot) m] } := by
  unfold sendToTopic
  by_cases h : getTopicID w.bot = ""
  · simp [h]
  · simp only [h, if_false]
    split <;> rfl

theorem createForumTopic_snd (E : Env) (title : String) (m : MessageSend) (w : World) :
    (createForumTopic E title m w).2 =
      { w with
        calls := w.calls ++ [Call.ForumThreadStartComplex w.bot.config.ForumID title m],
        bot := match E.ForumThreadStartComplex w.calls.length with
          | none => w.bot
          | some threadID => setTopicID w.bot threadID } := by
  unfold createForumTopic
  cases h : E.ForumThreadStartComplex w.calls.length <;> simp [h]

theorem postNowplaying_snd (E : Env) (t : TrackInfo) (s : Option SessionInfo) (w : World) :
    (postNowplaying E t s w).2 =
      match MapOf.Load w.bot.postedTracks t.TrackId with
      | some _ => w
      | none =>
        let w1 := { w with bot := { w.bot with postedTracks := MapOf.Store w.bot.postedTracks t.TrackId true } }
        match s with
        | none => panic w1
        | some si =>
          if getTopicID w.bot = "" then w1
          else { w1 with calls := w.calls ++ [Call.ChannelMessageSendComplex
                  (SendOrigin.nowPlaying t.TrackId) (getTopicID w.bot) (createNowPlayingMessage t si)] } := by
  unfold postNowplaying MapOf.LoadOrStore
  cases h : MapOf.Load w.bot.postedTracks t.TrackId with
  | some v => simp [h]
  | none =>
    cases s with
    | none => simp [h]
    | some si => simp [h, sendToTopic_snd, getTopicID]

theorem containsText_startBody : containsText (msgSessionStartBody msgTimeUndetermined) "終了時間未定" := by
  refine ⟨"🔊 セッションを開始しました。\n\n🔚: ".data, "\n".data, ?_⟩
  rfl

/-! ## The dedup set -/

theorem Load_Store_self {V : Type} (m : MapOf V) (k : String) (v : V) :
    MapOf.Load (MapOf.Store m k v) k = some v := by
  induction m with
  | nil => simp [MapOf.Store, MapOf.Load]
  | cons p rest ih =>
    obtain ⟨k', v'⟩ := p
    by_cases h : k' = k
    · simp [MapOf.Store, MapOf.Load, h]
    · simp [MapOf.Store, MapOf.Load, h, ih]

theorem Load_Store_ne {V : Type} (m : MapOf V) (k k' : String) (v : V) (hne : k ≠ k') :
    MapOf.Load (MapOf.Store m k v) k' = MapOf.Load m k' := by
  induction m with
  | nil => simp [MapOf.Store, MapOf.Load, hne]
  | cons p rest ih =>
    obtain ⟨k0, v0⟩ := p
    by_cases h : k0 = k
    · subst h
      simp [MapOf.Store, MapOf.Load, hne]
    · by_cases h' : k0 = k'
      · subst h'
        simp [MapOf.Store, MapOf.Load, h]
      · simp [MapOf.Store, MapOf.Load, h, h', ih]

theorem postNowplaying_budget (E : Env) (t : TrackInfo) (s : Option SessionInfo) (w : World)
    (id : String) :
    sendBudget id (postNowplaying E t s w).2 ≤ sendBudget id w := by
  rw [postNowplaying_snd]
  cases h : MapOf.Load w.bot.postedTracks t.TrackId with
  | some v => simp
  | none =>
    by_cases hid : t.TrackId = id
    · subst hid
      cases s with
      | none =>
        simp [sendBudget, nowPlayingSends, isPosted, panic, Load_Store_self, h]
      | some si =>
        by_cases ht : getTopicID w.bot = ""
        · simp [sendBudget, nowPlayingSends, isPosted, Load_Store_self, h, ht]
        · simp [sendBudget, nowPlayingSends, isPosted, Load_Store_self, h, ht,
            List.countP_append, isNowPlayingSend]
    · cases s with
      | none =>
        simp [sendBudget, nowPlayingSends, isPosted, panic, Load_Store_ne _ _ _ _ hid]
      | some si =>
        by_cases ht : getTopicID w.bot = ""
        · simp [sendBudget, nowPlayingSends, isPosted, Load_Store_ne _ _ _ _ hid, ht]
        · simp [sendBudget, nowPlayingSends, isPosted, Load_Store_ne _ _ _ _ hid, ht,
            List.countP_append, isNowPlayingSend, hid]

theorem postNowplaying_frame (E : Env) (t : TrackInfo) (s : Option SessionInfo) (w : World) :
    closingSends (postNowplaying E t s w).2 = closingSends w
      ∧ topicCreations (postNowplaying E t s w).2 = topicCreations w
      ∧ (postNowplaying E t s w).2.bot.topicID = w.bot.topicID := by
  rw [postNowplaying_snd]
  cases h : MapOf.Load w.bot.postedTracks t.TrackId with
  | some v => simp
  | none =>
    cases s with
    | none => simp [closingSends, topicCreations, panic]
    | some si =>
      by_cases ht : getTopicID w.bot = ""
      · simp [closingSends, topicCreations, ht]
      · simp [closingSends, topicCreations, ht, List.countP_append, isClosingSend, isCreateTopic]

theorem createForumTopic_frame (E : Env) (title : String) (m : MessageSend) (w : World)
    (id : String) :
    sendBudget id (createForumTopic E title m w).2 = sendBudget id w
      ∧ closingSends (createForumTopic E title m w).2 = closingSends w
      ∧ topicCreations (createForumTopic E title m w).2 = topicCreations w + 1
      ∧ (createForumTopic E title m w).2.panicked = w.panicked := by
  rw [createForumTopic_snd]
  cases h : E.ForumThreadStartComplex w.calls.length <;>
    simp [sendBudget, nowPlayingSends, isPosted, closingSends, topicCreations, setTopicID,
      List.countP_append, isNowPlayingSend, isClosingSend, isCreateTopic]

/-! ## Effect of one notification -/

theorem handleSessionStart_budget (E : Env) (n : Notification) (w : World) (id : String) :
    sendBudget id (handleSessionStart E n w) ≤ sendBudget id w
      ∧ closingSends (handleSessionStart E n w) = closingSends w := by
  unfold handleSessionStart
  by_cases ht : getTopicID w.bot = ""
  · simp only [ht, ne_eq, not_true_eq_false, if_false]
    cases n.Session with
    | none => simp [panic, sendBudget, nowPlayingSends, isPosted, closingSends]
    | some si =>
      simp only []
      obtain ⟨hb, hc, -, -⟩ := createForumTopic_frame E
        (msgSessionStartTitle (E.nowTopicTitle w.calls.length))
        (createSessionMessage (msgSessionStartBody (formatSessionEnd E si.ScheduledEndTime)) si
          w.bot.guildIconURL) w id
      cases n.Track with
      | none => exact ⟨le_of_eq hb, hc⟩
      | some t =>
        simp only []
        split
        · refine ⟨le_trans (postNowplaying_budget E t (some si) _ id) (le_of_eq hb), ?_⟩
          rw [(postNowplaying_frame E t (some si) _).1, hc]
        · exact ⟨le_of_eq hb, hc⟩
  · simp [ht]

theorem handleSessionStart_creations (E : Env) (n : Notification) (w : World) :
    topicCreations (handleSessionStart E n w)
      = topicCreations w + (if getTopicID w.bot = "" ∧ n.Session.isSome then 1 else 0) := by
  unfold handleSessionStart
  by_cases ht : getTopicID w.bot = ""
  · simp only [ht, ne_eq, not_true_eq_false, if_false]
    cases n.Session with
    | none => simp [panic, topicCreations]
    | some si =>
      simp only []
      obtain ⟨-, -, hc, -⟩ := createForumTopic_frame E
        (msgSessionStartTitle (E.nowTopicTitle w.calls.length))
        (createSessionMessage (msgSessionStartBody (formatSessionEnd E si.ScheduledEndTime)) si
          w.bot.guildIconURL) w ""
      cases n.Track with
      | none => simpa using hc
      | some t =>
        simp only []
        split
        · rw [(postNowplaying_frame E t (some si) _).2.1, hc]; simp
        · simpa using hc
  · simp [ht]

theorem handleSessionStart_absent (E : Env) (n : Notification) (w : World)
    (hs : n.Session = none) : (handleSessionStart E n w).bot = w.bot := by
  unfold handleSessionStart
  split
  · rfl
  · simp [hs, panic]

theorem handleSessionEnd_budget (E : Env) (n : Notification) (w : World) (id : String) :
    nowPlayingSends id (handleSessionEnd E n w) = nowPlayingSends id w
      ∧ sendBudget id (handleSessionEnd E n w) + closingSends w
          ≤ sendBudget id w + closingSends (handleSessionEnd E n w)
      ∧ topicCreations (handleSessionEnd E n w) = topicCreations w := by
  unfold handleSessionEnd
  by_cases ht : getTopicID w.bot = ""
  · simp [ht]
  · simp only [ht, if_false]
    cases n.Session with
    | none => simp [panic, sendBudget, nowPlayingSends, isPosted, closingSends, topicCreations]
    | some si =>
      simp only [sendToTopic_snd, ht, if_false]
      simp [sendBudget, nowPlayingSends, isPosted, closingSends, topicCreations, setTopicID,
        MapOf.Clear, MapOf.Load, List.countP_append, isNowPlayingSend, isClosingSend,
        isCreateTopic]
      omega

theorem handleTrackStart_budget (E : Env) (n : Notification) (w : World) (id : String) :
    sendBudget id (handleTrackStart E n w) ≤ sendBudget id w
      ∧ closingSends (handleTrackStart E n w) = closingSends w
      ∧ topicCreations (handleTrackStart E n w) = topicCreations w
      ∧ (handleTrackStart E n w).bot.topicID = w.bot.topicID := by
  unfold handleTrackStart
  cases n.Track with
  | none => simp
  | some t =>
    exact ⟨postNowplaying_budget E t _ w id, postNowplaying_frame E t _ w⟩

theorem handleError_frame (e : Option String) (w : World) (id : String) :
    sendBudget id (handleError e w) = sendBudget id w
      ∧ closingSends (handleError e w) = closingSends w
      ∧ topicCreations (handleError e w) = topicCreations w
      ∧ (handleError e w).bot.topicID = w.bot.topicID := by
  simp [handleError, sendBudget, nowPlayingSends, isPosted, closingSends, topicCreations]

theorem receiveNotification_budget (E : Env) (w : World) (n : Notification) (id : String) :
    sendBudget id (receiveNotification E w n) + closingSends w
      ≤ sendBudget id w + closingSends (receiveNotification E w n) := by
  unfold receiveNotification
  split
  · exact le_refl _
  · split
    · have h := handleSessionStart_budget E n w id
      omega
    · split
      · exact (handleSessionEnd_budget E n w id).2.1
      · split
        · have h := handleTrackStart_budget E n w id
          omega
        · split
          · have h := handleError_frame n.Error w id
            omega
          · exact le_refl _

theorem receiveNotification_budget_inner (E : Env) (w : World) (n : Notification) (id : String)
    (hn : n.Type' ≠ NotificationTypeSessionEnd) :
    sendBudget id (receiveNotification E w n) ≤ sendBudget id w := by
  unfold receiveNotification
  rw [if_neg hn]
  split
  · exact le_refl _
  · split
    · exact (handleSessionStart_budget E n w id).1
    · split
      · exact (handleTrackStart_budget E n w id).1
      · split
        · exact le_of_eq (handleError_frame n.Error w id).1
        · exact le_refl _

theorem receiveNotification_sends_le (E : Env) (w : World) (n : Notification) (id : String) :
    nowPlayingSends id (receiveNotification E w n) ≤ sendBudget id w := by
  by_cases hn : n.Type' = NotificationTypeSessionEnd
  · have hne : ¬ (n.Type' = NotificationTypeSessionStart) := by
      rw [hn]; decide
    unfold receiveNotification
    rw [if_neg hne, if_pos hn]
    split
    · exact Nat.le_add_right _ _
    · rw [(handleSessionEnd_budget E n w id).1]
      exact Nat.le_add_right _ _
  · exact le_trans (Nat.le_add_right _ _) (receiveNotification_budget_inner E w n id hn)

theorem receiveNotification_creations (E : Env) (w : World) (n : Notification) :
    (if movesIdleToActive E w n then 1 else 0) + topicCreations w
        ≤ topicCreations (receiveNotification E w n)
      ∧ topicCreations (receiveNotification E w n)
        ≤ topicCreations w + (if startsWhileIdle w n then 1 else 0) := by
  by_cases hp : w.panicked = true
  · simp [movesIdleToActive, startsWhileIdle, receiveNotification, hp]
  · by_cases hs : n.Type' = NotificationTypeSessionStart
    · have hstep : receiveNotification E w n = handleSessionStart E n w := by
        simp [receiveNotification, hp, hs]
      by_cases ht : getTopicID w.bot = ""
      · cases hsess : n.Session with
        | none =>
          have hb := handleSessionStart_absent E n w hsess
          simp [movesIdleToActive, startsWhileIdle, hstep, hp, hs, ht, hb,
            handleSessionStart_creations, hsess]
        | some si =>
          simp [movesIdleToActive, startsWhileIdle, hstep, hp, hs, ht,
            handleSessionStart_creations, hsess]
          split <;> omega
      · simp [movesIdleToActive, startsWhileIdle, hstep, hp, hs, ht,
          handleSessionStart_creations]
    · have hc : topicCreations (receiveNotification E w n) = topicCreations w := by
        unfold receiveNotification
        rw [if_neg hp, if_neg hs]
        split
        · exact (handleSessionEnd_budget E n w "").2.2
        · split
          · exact (handleTrackStart_budget E n w "").2.2.1
          · split
            · exact (handleError_frame n.Error w "").2.2.1
            · rfl
      simp [movesIdleToActive, startsWhileIdle, hs, hc]

/-! ## Runs -/

theorem receiveNotifications_cons (E : Env) (w : World) (n : Notification)
    (ns : List Notification) :
    receiveNotifications E w (n :: ns) = receiveNotifications E (receiveNotification E w n) ns :=
  rfl

theorem receiveNotifications_budget (E : Env) (id : String) (ns : List Notification) :
    ∀ w : World, sendBudget id (receiveNotifications E w ns) + closingSends w
      ≤ sendBudget id w + closingSends (receiveNotifications E w ns) := by
  induction ns with
  | nil => intro w; exact le_refl _
  | cons n ns ih =>
    intro w
    rw [receiveNotifications_cons]
    have h1 := receiveNotification_budget E w n id
    have h2 := ih (receiveNotification E w n)
    omega

theorem receiveNotifications_segment (E : Env) (id : String) (seg : List Notification) :
    ∀ w : World, (∀ n ∈ seg.dropLast, n.Type' ≠ NotificationTypeSessionEnd) →
      nowPlayingSends id (receiveNotifications E w seg) ≤ sendBudget id w := by
  induction seg with
  | nil => intro w _; exact Nat.le_add_right _ _
  | cons n rest ih =>
    intro w hseg
    cases rest with
    | nil => exact receiveNotification_sends_le E w n id
    | cons m rest' =>
      rw [receiveNotifications_cons]
      have hn : n.Type' ≠ NotificationTypeSessionEnd := hseg n (by simp [List.dropLast])
      have hrest : ∀ x ∈ (m :: rest').dropLast, x.Type' ≠ NotificationTypeSessionEnd := by
        intro x hx
        exact hseg x (by simp only [List.dropLast]; exact List.mem_cons_of_mem _ hx)
      exact le_trans (ih _ hrest) (receiveNotification_budget_inner E w n id hn)

theorem receiveNotifications_creations (E : Env) (ns : List Notification) :
    ∀ w : World,
      countSteps E (movesIdleToActive E) w ns + topicCreations w
          ≤ topicCreations (receiveNotifications E w ns)
        ∧ topicCreations (receiveNotifications E w ns)
          ≤ topicCreations w + countSteps E startsWhileIdle w ns := by
  induction ns with
  | nil => intro w; simp [countSteps, receiveNotifications]
  | cons n ns ih =>
    intro w
    rw [receiveNotifications_cons]
    have h1 := receiveNotification_creations E w n
    have h2 := ih (receiveNotification E w n)
    simp only [countSteps]
    omega

/-! ## Effect of one command -/

theorem requestTrackForward_eq (E : Env) (i : InteractionCreate) (token trackURL : String)
    (w : World) :
    requestTrackForward E i token trackURL w =
      { w with calls := w.calls ++ [Call.Request token trackURL,
          Call.InteractionResponseEdit i.ID (forwardResponse E w.calls.length)] } := by
  unfold requestTrackForward ClientRequest forwardResponse
  cases h : E.Request w.calls.length with
  | none => simp [h, responseUpdate]
  | some r =>
    obtain ⟨a, b, c⟩ := r
    simp [h, responseUpdate]

theorem requestTrack_hit (E : Env) (i : InteractionCreate) (w : World) (token : String)
    (o : ApplicationCommandInteractionDataOption) (os : List ApplicationCommandInteractionDataOption)
    (hu : (callerOf i).1 ≠ "") (ho : i.Data.Options = o :: os)
    (hl : MapOf.Load w.bot.tokens (callerOf i).1 = some token) :
    requestTrack E i w = requestTrackForward E i token o.Value w := by
  unfold requestTrack
  simp only [hu, if_false, ho, hl]

theorem requestTrack_miss (E : Env) (i : InteractionCreate) (w : World)
    (o : ApplicationCommandInteractionDataOption) (os : List ApplicationCommandInteractionDataOption)
    (hu : (callerOf i).1 ≠ "") (ho : i.Data.Options = o :: os)
    (hl : MapOf.Load w.bot.tokens (callerOf i).1 = none) :
    requestTrack E i w =
      match E.Join w.calls.length with
      | none =>
        { w with calls := w.calls ++ [Call.Join (callerOf i).2 (callerOf i).1,
            Call.InteractionResponseEdit i.ID msgInternalError] }
      | some token =>
        { w with
          calls := w.calls ++ [Call.Join (callerOf i).2 (callerOf i).1, Call.Request token o.Value,
            Call.InteractionResponseEdit i.ID (forwardResponse E (w.calls.length + 1))],
          bot := { w.bot with tokens := MapOf.Store w.bot.tokens (callerOf i).1 token } } := by
  unfold requestTrack
  simp only [hu, if_false, ho, hl, ClientJoin]
  cases h : E.Join w.calls.length with
  | none => simp [h, responseUpdate]
  | some token => simp [h, requestTrackForward_eq]

theorem requestTrack_rejected (E : Env) (i : InteractionCreate) (w : World)
    (h : (callerOf i).1 = "" ∨ i.Data.Options = []) :
    requestTrack E i w = responseUpdate E i msgInternalError w := by
  unfold requestTrack
  by_cases hu : (callerOf i).1 = ""
  · simp only [hu, if_true]
  · cases h with
    | inl h => exact absurd h hu
    | inr h => simp only [hu, if_false, h]

theorem requestTrack_keeps_token (E : Env) (i : InteractionCreate) (w : World)
    (uid tok : String) (h : MapOf.Load w.bot.tokens uid = some tok) :
    MapOf.Load (requestTrack E i w).bot.tokens uid = some tok := by
  by_cases hu : (callerOf i).1 = ""
  · rw [requestTrack_rejected E i w (Or.inl hu)]; exact h
  · cases ho : i.Data.Options with
    | nil => rw [requestTrack_rejected E i w (Or.inr ho)]; exact h
    | cons o os =>
      cases hl : MapOf.Load w.bot.tokens (callerOf i).1 with
      | some token =>
        rw [requestTrack_hit E i w token o os hu ho hl, requestTrackForward_eq]; exact h
      | none =>
        have hne : (callerOf i).1 ≠ uid := by
          intro heq; rw [heq, h] at hl; cases hl
        rw [requestTrack_miss E i w o os hu ho hl]
        cases E.Join w.calls.length with
        | none => exact h
        | some token =>
          show MapOf.Load (MapOf.Store w.bot.tokens (callerOf i).1 token) uid = some tok
          rw [Load_Store_ne _ _ _ _ hne]; exact h

theorem requestTrackAll_keeps_token (E : Env) (uid tok : String) (is : List InteractionCreate) :
    ∀ w : World, MapOf.Load w.bot.tokens uid = some tok →
      MapOf.Load (requestTrackAll E w is).bot.tokens uid = some tok := by
  induction is with
  | nil => intro w h; exact h
  | cons i rest ih =>
    intro w h
    exact ih _ (requestTrack_keeps_token E i w uid tok h)

theorem requestTrack_eq_runTask (E : Env) (i : InteractionCreate) (w : World) :
    runTask E i 5 (Pc.start, w) = (Pc.done, requestTrack E i w) := by
  by_cases hu : (callerOf i).1 = ""
  · rw [requestTrack_rejected E i w (Or.inl hu)]
    simp [runTask, stepTask, hu]
  · cases ho : i.Data.Options with
    | nil =>
      rw [requestTrack_rejected E i w (Or.inr ho)]
      simp [runTask, stepTask, hu, ho]
    | cons o os =>
      cases hl : MapOf.Load w.bot.tokens (callerOf i).1 with
      | some token =>
        rw [requestTrack_hit E i w token o os hu ho hl]
        simp only [runTask, stepTask, hu, if_false, ho, hl, requestTrackForward]
        cases h : ClientRequest E token o.Value w with
        | mk r w1 =>
          cases r with
          | none => simp [stepTask]
          | some r => simp [stepTask]
      | none =>
        unfold requestTrack
        simp only [runTask, stepTask, hu, if_false, ho, hl]
        cases hj : ClientJoin E (callerOf i).2 (callerOf i).1 w with
        | mk r w1 =>
          cases r with
          | none => simp [stepTask]
          | some l =>
            simp only [stepTask, requestTrackForward]
            cases h : ClientRequest E l o.Value _ with
            | mk r w2 =>
              cases r with
              | none => simp [stepTask]
              | some r => simp [stepTask]

/-! ## The scheduled end -/

theorem twoDigits_eq : ∀ n, n < 100 →
    twoDigits n = String.mk [Nat.digitChar (n / 10), Nat.digitChar (n % 10)] := by
  decide

theorem secOfDay_lt (x : Int) : (x % 86400).toNat < 86400 := by
  have h1 : 0 ≤ x % 86400 := Int.emod_nonneg x (by decide)
  have h2 : x % 86400 < 86400 := Int.emod_lt_of_pos x (by decide)
  omega

theorem timeFormatDisplay_eq (x : Int) : timeFormatDisplay x = String.mk (clockDigits x) := by
  have h := secOfDay_lt x
  have hh : (x % 86400).toNat / 3600 < 100 := by omega
  have hm : (x % 86400).toNat % 3600 / 60 < 100 := by omega
  unfold timeFormatDisplay clockDigits
  simp only [twoDigits_eq _ hh, twoDigits_eq _ hm]
  rfl

/-! ## The dedup marker -/

theorem postNowplaying_marks (E : Env) (t : TrackInfo) (s : Option SessionInfo) (w : World) :
    isPosted (postNowplaying E t s w).2 t.TrackId = true := by
  rw [postNowplaying_snd]
  cases h : MapOf.Load w.bot.postedTracks t.TrackId with
  | some v => simp [isPosted, h]
  | none =>
    cases s with
    | none => simp [isPosted, panic, Load_Store_self]
    | some si =>
      by_cases ht : getTopicID w.bot = ""
      · simp [isPosted, ht, Load_Store_self]
      · simp [isPosted, ht, Load_Store_self]

theorem postNowplaying_keeps (E : Env) (t : TrackInfo) (s : Option SessionInfo) (w : World)
    (id : String) (hp : isPosted w id = true) :
    isPosted (postNowplaying E t s w).2 id = true := by
  by_cases hid : t.TrackId = id
  · rw [← hid]; exact postNowplaying_marks E t s w
  · rw [postNowplaying_snd]
    cases h : MapOf.Load w.bot.postedTracks t.TrackId with
    | some v => simpa using hp
    | none =>
      have hl : MapOf.Load (MapOf.Store w.bot.postedTracks t.TrackId true) id
          = MapOf.Load w.bot.postedTracks id := Load_Store_ne _ _ _ _ hid
      unfold isPosted at hp
      cases s with
      | none => simp [isPosted, panic, hl, hp]
      | some si =>
        by_cases ht : getTopicID w.bot = ""
        · simp [isPosted, ht, hl, hp]
        · simp [isPosted, ht, hl, hp]

theorem handleSessionStart_keeps (E : Env) (n : Notification) (w : World) (id : String)
    (hp : isPosted w id = true) : isPosted (handleSessionStart E n w) id = true := by
  unfold handleSessionStart
  split
  · exact hp
  · cases n.Session with
    | none => simpa [isPosted, panic] using hp
    | some si =>
      simp only []
      have hc : isPosted (createForumTopic E
          (msgSessionStartTitle (E.nowTopicTitle w.calls.length))
          (createSessionMessage (msgSessionStartBody (formatSessionEnd E si.ScheduledEndTime)) si
            w.bot.guildIconURL) w).2 id = true := by
        rw [createForumTopic_snd]
        cases E.ForumThreadStartComplex w.calls.length <;> simpa [isPosted, setTopicID] using hp
      cases n.Track with
      | none => exact hc
      | some t =>
        simp only []
        split
        · exact postNowplaying_keeps E t _ _ id hc
        · exact hc

theorem receiveNotification_keeps (E : Env) (w : World) (n : Notification) (id : String)
    (hp : isPosted w id = true) (hc : clearsDedup w n = false) :
    isPosted (receiveNotification E w n) id = true := by
  unfold receiveNotification
  by_cases hpan : w.panicked = true
  · rw [if_pos hpan]; exact hp
  · rw [if_neg hpan]
    by_cases h1 : n.Type' = NotificationTypeSessionStart
    · rw [if_pos h1]; exact handleSessionStart_keeps E n w id hp
    · rw [if_neg h1]
      by_cases h2 : n.Type' = NotificationTypeSessionEnd
      · rw [if_pos h2]
        unfold handleSessionEnd
        by_cases ht : getTopicID w.bot = ""
        · rw [if_pos ht]; exact hp
        · rw [if_neg ht]
          cases hs : n.Session with
          | none => simpa [isPosted, panic] using hp
          | some si => simp [clearsDedup, hpan, h2, ht, hs] at hc
      · rw [if_neg h2]
        by_cases h3 : n.Type' = NotificationTypeTrackStart
        · rw [if_pos h3]
          unfold handleTrackStart
          cases n.Track with
          | none => exact hp
          | some t => exact postNowplaying_keeps E t _ w id hp
        · rw [if_neg h3]
          split
          · simpa [isPosted, handleError] using hp
          · exact hp

theorem receiveNotifications_keeps (E : Env) (id : String) (ns : List Notification) :
    ∀ w : World, isPosted w id = true → countSteps E clearsDedup w ns = 0 →
      isPosted (receiveNotifications E w ns) id = true := by
  induction ns with
  | nil => intro w hp _; exact hp
  | cons n rest ih =>
    intro w hp hc
    rw [receiveNotifications_cons]
    simp only [countSteps] at hc
    have hn : clearsDedup w n = false := by
      cases h : clearsDedup w n
      · rfl
      · rw [h] at hc; simp at hc
    exact ih _ (receiveNotification_keeps E w n id hp hn) (by omega)

theorem trackStart_posted_ignored (E : Env) (w : World) (n : Notification) (t : TrackInfo)
    (hty : n.Type' = NotificationTypeTrackStart) (htr : n.Track = some t)
    (hp : isPosted w t.TrackId = true) : receiveNotification E w n = w := by
  have h1 : ¬ (n.Type' = NotificationTypeSessionStart) := by rw [hty]; decide
  have h2 : ¬ (n.Type' = NotificationTypeSessionEnd) := by rw [hty]; decide
  unfold receiveNotification
  by_cases hpan : w.panicked = true
  · rw [if_pos hpan]
  · rw [if_neg hpan, if_neg h1, if_neg h2, if_pos hty]
    unfold handleTrackStart
    rw [htr]
    simp only []
    rw [postNowplaying_snd]
    unfold isPosted at hp
    cases h : MapOf.Load w.bot.postedTracks t.TrackId with
    | some v => rfl
    | none => rw [h] at hp; simp at hp

theorem postNowplaying_fresh (E : Env) (t : TrackInfo) (si : SessionInfo) (w : World)
    (hfresh : isPosted w t.TrackId = false) :
    (getTopicID w.bot = "" →
        (postNowplaying E t (some si) w).1 = some "topicID is not set"
          ∧ (postNowplaying E t (some si) w).2.calls = w.calls)
      ∧ (getTopicID w.bot ≠ "" →
        (postNowplaying E t (some si) w).2.calls
            = w.calls ++ [Call.ChannelMessageSendComplex (SendOrigin.nowPlaying t.TrackId)
                (getTopicID w.bot) (createNowPlayingMessage t si)]
          ∧ ((postNowplaying E t (some si) w).1 = none
              ↔ E.ChannelMessageSendComplex w.calls.length = true)) := by
  have hl : MapOf.Load w.bot.postedTracks t.TrackId = none := by
    unfold isPosted at hfresh
    cases h : MapOf.Load w.bot.postedTracks t.TrackId with
    | none => rfl
    | some v => rw [h] at hfresh; simp at hfresh
  constructor
  · intro ht
    simp [postNowplaying, MapOf.LoadOrStore, hl, sendToTopic, getTopicID] at *
    simp [ht]
  · intro ht
    simp only [postNowplaying, MapOf.LoadOrStore, hl, sendToTopic]
    have ht' : getTopicID { w.bot with postedTracks := MapOf.Store w.bot.postedTracks t.TrackId true }
        = getTopicID w.bot := rfl
    simp only [Bool.false_eq_true, if_false, ht', ht]
    cases E.ChannelMessageSendComplex w.calls.length <;> simp

/-! ## Payloads of adapter-produced notifications -/

theorem Subscribe_session_payload (m : v1.Notification) (n : Notification)
    (hn : n ∈ SubscribeReceive m []) :
    ((n.Type' = NotificationTypeSessionStart ∨ n.Type' = NotificationTypeSessionEnd) →
        n.Session.isSome = true)
      ∧ (n.Type' = NotificationTypeTrackStart → n.Track.isSome = true) := by
  unfold SubscribeReceive at hn
  revert hn
  cases hk : m.Type' <;> cases hsi : m.SessionInfo <;> cases hti : m.TrackInfo <;>
    simp [SessionInfo.GetState, TrackInfo.GetState, NotificationTypeSessionStart,
      NotificationTypeSessionEnd, NotificationTypeTrackStart] <;>
    (try split) <;> (try split) <;> intro hn <;> simp_all

theorem postNowplaying_live (E : Env) (t : TrackInfo) (si : SessionInfo) (w : World) :
    (postNowplaying E t (some si) w).2.panicked = w.panicked := by
  rw [postNowplaying_snd]
  cases h : MapOf.Load w.bot.postedTracks t.TrackId with
  | some v => rfl
  | none =>
    by_cases ht : getTopicID w.bot = ""
    · simp [ht]
    · simp [ht]

theorem receiveNotification_live (E : Env) (w : World) (n : Notification) (si : SessionInfo)
    (hw : w.panicked = false) (hs : n.Session = some si) :
    (receiveNotification E w n).panicked = false := by
  unfold receiveNotification
  rw [if_neg (by simp [hw])]
  split
  · unfold handleSessionStart
    split
    · exact hw
    · rw [hs]
      simp only []
      have hc := (createForumTopic_frame E
        (msgSessionStartTitle (E.nowTopicTitle w.calls.length))
        (createSessionMessage (msgSessionStartBody (formatSessionEnd E si.ScheduledEndTime)) si
          w.bot.guildIconURL) w "").2.2.2
      cases n.Track with
      | none => simpa [hw] using hc
      | some t =>
        simp only []
        split
        · rw [postNowplaying_live, hc, hw]
        · simpa [hw] using hc
  · split
    · unfold handleSessionEnd
      split
      · exact hw
      · rw [hs]
        simp only [sendToTopic_snd]
        split <;> simp [hw, setTopicID]
    · split
      · unfold handleTrackStart
        cases n.Track with
        | none => exact hw
        | some t =>
          simp only [hs]
          rw [postNowplaying_live, hw]
      · split
        · simpa [handleError] using hw
        · exact hw

theorem Subscribe_session_notifications_live (E : Env) (w : World) (m : v1.Notification)
    (n : Notification) (hn : n ∈ SubscribeReceive m [])
    (hty : n.Type' = NotificationTypeSessionStart ∨ n.Type' = NotificationTypeSessionEnd)
    (hw : w.panicked = false) : (receiveNotification E w n).panicked = false := by
  have hs := (Subscribe_session_payload m n hn).1 hty
  cases hsi : n.Session with
  | none => rw [hsi] at hs; simp at hs
  | some si => exact receiveNotification_live E w n si hw hsi

/-! ## The claims -/

/-- C1. End-to-end scenario: from an idle state with an empty dedup set, with a topic
creation that succeeds with the non-empty identifier `topic`, processing
SessionStart (keywords chill and study, no scheduled end, no track), TrackStart for
"t1", TrackStart for "t1" again and SessionEnd makes exactly three calls: one topic
creation whose body contains "終了時間未定", one now-playing send (by the first
TrackStart, none by the second) and one closing send; the topic identifier ends
empty. -/
theorem scenario_end_to_end (E : Env) (w : World) (sA sB sC sD : SessionInfo) (tB tC : TrackInfo)
    (topic : String)
    (hidle : getTopicID w.bot = "") (hdedup : w.bot.postedTracks = [])
    (hlive : w.panicked = false)
    (hcreate : E.ForumThreadStartComplex w.calls.length = some topic) (htopic : topic ≠ "")
    (hkw : sA.Keywords = ["chill", "study"]) (hend : sA.ScheduledEndTime = "")
    (hB : tB.TrackId = "t1") (hC : tC.TrackId = "t1") :
    (∃ title body,
        (receiveNotifications E w [sessionStartOf sA none]).calls
            = w.calls ++ [Call.ForumThreadStartComplex w.bot.config.ForumID title body]
          ∧ containsText body.Content "終了時間未定"
          ∧ body.Embed.Fields = [{ Name := "Keyword", Value := "chill, study" }]
          ∧ (receiveNotifications E w
                [sessionStartOf sA none, trackStartOf (some sB) tB, trackStartOf (some sC) tC,
                  sessionEndOf sD]).calls
              = w.calls ++ [Call.ForumThreadStartComplex w.bot.config.ForumID title body,
                  Call.ChannelMessageSendComplex (SendOrigin.nowPlaying "t1") topic
                    (createNowPlayingMessage tB sB),
                  Call.ChannelMessageSendComplex SendOrigin.sessionEnd topic
                    (createSessionMessage msgSessionEndBody sD w.bot.guildIconURL)])
      ∧ (receiveNotifications E w [sessionStartOf sA none, trackStartOf (some sB) tB]).calls
          = (receiveNotifications E w [sessionStartOf sA none]).calls
              ++ [Call.ChannelMessageSendComplex (SendOrigin.nowPlaying "t1") topic
                    (createNowPlayingMessage tB sB)]
      ∧ (receiveNotifications E w
            [sessionStartOf sA none, trackStartOf (some sB) tB, trackStartOf (some sC) tC]).calls
          = (receiveNotifications E w [sessionStartOf sA none, trackStartOf (some sB) tB]).calls
      ∧ (receiveNotifications E w
            [sessionStartOf sA none, trackStartOf (some sB) tB, trackStartOf (some sC) tC,
              sessionEndOf sD]).calls
          = (receiveNotifications E w
              [sessionStartOf sA none, trackStartOf (some sB) tB, trackStartOf (some sC) tC]).calls
              ++ [Call.ChannelMessageSendComplex SendOrigin.sessionEnd topic
                    (createSessionMessage msgSessionEndBody sD w.bot.guildIconURL)]
      ∧ getTopicID (receiveNotifications E w
            [sessionStartOf sA none, trackStartOf (some sB) tB, trackStartOf (some sC) tC,
              sessionEndOf sD]).bot = ""
      ∧ (receiveNotifications E w
            [sessionStartOf sA none, trackStartOf (some sB) tB, trackStartOf (some sC) tC,
              sessionEndOf sD]).panicked = false := by
  have hwA : receiveNotifications E w [sessionStartOf sA none] = { w with
      calls := w.calls ++ [Call.ForumThreadStartComplex w.bot.config.ForumID
        (msgSessionStartTitle (E.nowTopicTitle w.calls.length))
        (createSessionMessage (msgSessionStartBody msgTimeUndetermined) sA w.bot.guildIconURL)],
      bot := setTopicID w.bot topic } := by
    simp [sessionStartOf, receiveNotifications, receiveNotification, handleSessionStart,
      createForumTopic_snd, hidle, hlive, hcreate, formatSessionEnd, hend]
  have hwB : receiveNotifications E w [sessionStartOf sA none, trackStartOf (some sB) tB]
      = { receiveNotifications E w [sessionStartOf sA none] with
          calls := (receiveNotifications E w [sessionStartOf sA none]).calls
            ++ [Call.ChannelMessageSendComplex (SendOrigin.nowPlaying "t1") topic
                  (createNowPlayingMessage tB sB)],
          bot := { setTopicID w.bot topic with postedTracks := [("t1", true)] } } := by
    have : receiveNotifications E w [sessionStartOf sA none, trackStartOf (some sB) tB]
        = receiveNotification E (receiveNotifications E w [sessionStartOf sA none])
            (trackStartOf (some sB) tB) := rfl
    rw [this, hwA]
    simp [trackStartOf, receiveNotification, handleTrackStart, postNowplaying_snd,
      getTopicID, hlive, hdedup, hB, htopic, MapOf.Load, MapOf.Store, setTopicID,
      NotificationTypeSessionStart, NotificationTypeSessionEnd, NotificationTypeTrackStart]
  have hwC : receiveNotifications E w
        [sessionStartOf sA none, trackStartOf (some sB) tB, trackStartOf (some sC) tC]
      = receiveNotifications E w [sessionStartOf sA none, trackStartOf (some sB) tB] := by
    have : receiveNotifications E w
          [sessionStartOf sA none, trackStartOf (some sB) tB, trackStartOf (some sC) tC]
        = receiveNotification E
            (receiveNotifications E w [sessionStartOf sA none, trackStartOf (some sB) tB])
            (trackStartOf (some sC) tC) := rfl
    rw [this, hwB, hwA]
    simp [trackStartOf, receiveNotification, handleTrackStart, postNowplaying_snd,
      hlive, hC, MapOf.Load,
      NotificationTypeSessionStart, NotificationTypeSessionEnd, NotificationTypeTrackStart]
  have hwD : receiveNotifications E w
        [sessionStartOf sA none, trackStartOf (some sB) tB, trackStartOf (some sC) tC,
          sessionEndOf sD]
      = { receiveNotifications E w
            [sessionStartOf sA none, trackStartOf (some sB) tB, trackStartOf (some sC) tC] with
          calls := (receiveNotifications E w
              [sessionStartOf sA none, trackStartOf (some sB) tB, trackStartOf (some sC) tC]).calls
            ++ [Call.ChannelMessageSendComplex SendOrigin.sessionEnd topic
                  (createSessionMessage msgSessionEndBody sD w.bot.guildIconURL)],
          bot := { setTopicID w.bot "" with postedTracks := [] } } := by
    have : receiveNotifications E w
          [sessionStartOf sA none, trackStartOf (some sB) tB, trackStartOf (some sC) tC,
            sessionEndOf sD]
        = receiveNotification E
            (receiveNotifications E w
              [sessionStartOf sA none, trackStartOf (some sB) tB, trackStartOf (some sC) tC])
            (sessionEndOf sD) := rfl
    rw [this, hwC, hwB, hwA]
    simp [sessionEndOf, receiveNotification, handleSessionEnd, sendToTopic_snd,
      getTopicID, setTopicID, hlive, htopic, MapOf.Clear,
      NotificationTypeSessionStart, NotificationTypeSessionEnd]
  refine ⟨⟨_, _, by rw [hwA], containsText_startBody, ?_, ?_⟩, by rw [hwB], by rw [hwC],
    by rw [hwD], ?_, ?_⟩
  · simp [createSessionMessage, createKeywordField, hkw, embedKeywordField]
    decide
  · rw [hwD, hwC, hwB, hwA]; simp
  · rw [hwD]; rfl
  · rw [hwD, hwC, hwB, hwA]; exact hlive

/-- Witness for C1: the scenario with collaborators that always succeed. -/
theorem scenario_end_to_end_witness :
    (receiveNotifications sampleEnv (NewBot sampleConfig)
          [sessionStartOf sampleSession none, trackStartOf (some sampleSession) sampleTrack, trackStartOf (some sampleSession) sampleTrack,
            sessionEndOf sampleSession]).calls.countP isCreateTopic = 1
      ∧ getTopicID (receiveNotifications sampleEnv (NewBot sampleConfig)
          [sessionStartOf sampleSession none, trackStartOf (some sampleSession) sampleTrack, trackStartOf (some sampleSession) sampleTrack,
            sessionEndOf sampleSession]).bot = "" :=
  ⟨by decide,
    (scenario_end_to_end sampleEnv (NewBot sampleConfig) sampleSession sampleSession sampleSession sampleSession sampleTrack sampleTrack "topic-1" rfl rfl rfl rfl
      (by decide) rfl rfl rfl rfl).2.2.2.2.1⟩

/-- C2. Within one session, that is over any stretch of notifications in which no
SessionEnd occurs before the last one (so the dedup set is not cleared in between),
at most one now-playing send is made for a track id, whatever the notifications
carry and whatever the collaborators answer. -/
theorem nowPlaying_at_most_once_per_session (E : Env) (w : World) (seg : List Notification)
    (id : String) (hseg : ∀ n ∈ seg.dropLast, n.Type' ≠ NotificationTypeSessionEnd) :
    nowPlayingSends id (receiveNotifications E w seg) ≤ nowPlayingSends id w + 1 := by
  have h := receiveNotifications_segment E id seg w hseg
  have h2 : sendBudget id w ≤ nowPlayingSends id w + 1 := by
    unfold sendBudget; split <;> omega
  exact le_trans h h2

/-- Witness for C2: a session that delivers the same track four times. -/
theorem nowPlaying_at_most_once_per_session_witness :
    (∀ n ∈ [sampleSessionStartWithTrack, sampleTrackStart, sampleSessionStartWithTrack, sampleTrackStart, sampleSessionEnd].dropLast,
        n.Type' ≠ NotificationTypeSessionEnd)
      ∧ nowPlayingSends "t1"
          (receiveNotifications sampleEnv (NewBot sampleConfig) [sampleSessionStartWithTrack, sampleTrackStart, sampleSessionStartWithTrack, sampleTrackStart, sampleSessionEnd])
        ≤ nowPlayingSends "t1" (NewBot sampleConfig) + 1 :=
  ⟨by decide, nowPlaying_at_most_once_per_session sampleEnv (NewBot sampleConfig) _ "t1" (by decide)⟩

/-- C3. A SessionStart processed while the topic identifier is non-empty is ignored:
the state is returned as it was, so no call is made and the topic identifier and
the dedup set are unchanged. -/
theorem handleSessionStart_active_ignored (E : Env) (n : Notification) (w : World)
    (h : getTopicID w.bot ≠ "") :
    handleSessionStart E n w = w
      ∧ (handleSessionStart E n w).calls = w.calls
      ∧ (handleSessionStart E n w).bot.topicID = w.bot.topicID
      ∧ (handleSessionStart E n w).bot.postedTracks = w.bot.postedTracks := by
  have : handleSessionStart E n w = w := by simp [handleSessionStart, h]
  simp [this]

/-- Witness for C3: a second SessionStart, with a track, while `topic-1` is active. -/
theorem handleSessionStart_active_ignored_witness :
    getTopicID sampleActiveWorld.bot ≠ "" ∧ handleSessionStart sampleEnv sampleSessionStartWithTrack sampleActiveWorld = sampleActiveWorld :=
  ⟨by decide, (handleSessionStart_active_ignored sampleEnv sampleSessionStartWithTrack sampleActiveWorld (by decide)).1⟩

/-- Counterexample to C4: when the platform refuses the creation, one SessionStart
makes one topic-creation call and no move from Idle to ActiveSession. -/
theorem creations_exceed_transitions :
    topicCreations (receiveNotifications failingCreateEnv (NewBot sampleConfig) [sampleSessionStart]) = 1
      ∧ countSteps failingCreateEnv (movesIdleToActive failingCreateEnv) (NewBot sampleConfig) [sampleSessionStart] = 0
      ∧ ¬ (topicCreations (receiveNotifications failingCreateEnv (NewBot sampleConfig) [sampleSessionStart])
            ≤ countSteps failingCreateEnv (movesIdleToActive failingCreateEnv) (NewBot sampleConfig) [sampleSessionStart]) := by
  decide

/-- C4, amended. Over any run, every move from Idle to ActiveSession is matched by a
topic-creation call, and the number of topic-creation calls is at most the number
of SessionStart notifications processed while Idle. -/
theorem creations_between_transitions_and_idle_starts (E : Env) (w : World)
    (ns : List Notification) :
    countSteps E (movesIdleToActive E) w ns + topicCreations w
        ≤ topicCreations (receiveNotifications E w ns)
      ∧ topicCreations (receiveNotifications E w ns)
        ≤ topicCreations w + countSteps E startsWhileIdle w ns :=
  receiveNotifications_creations E ns w

/-- Counterexample to C5: a TrackStart processed while Idle marks its id, and the
SessionEnd that follows is ignored, so the dedup set is not empty after it. -/
theorem sessionEnd_idle_keeps_dedup :
    (receiveNotifications sampleEnv (NewBot sampleConfig) [sampleTrackStart]).panicked = false
      ∧ (receiveNotification sampleEnv (receiveNotifications sampleEnv (NewBot sampleConfig) [sampleTrackStart]) sampleSessionEnd).bot.postedTracks
          = [("t1", true)]
      ∧ (receiveNotification sampleEnv (receiveNotifications sampleEnv (NewBot sampleConfig) [sampleTrackStart]) sampleSessionEnd).bot.postedTracks
          ≠ [] := by
  decide

/-- C5, amended. After a SessionEnd that carries its session snapshot, processed in
any live state, the topic identifier is empty; the dedup set is empty when a topic
was active, and the state is untouched when none was; a SessionStart carrying its
session snapshot and processed next makes one topic-creation call. -/
theorem sessionEnd_clears (E : Env) (w : World) (n : Notification) (si : SessionInfo)
    (hlive : w.panicked = false) (hty : n.Type' = NotificationTypeSessionEnd)
    (hs : n.Session = some si) :
    getTopicID (receiveNotification E w n).bot = ""
      ∧ (receiveNotification E w n).panicked = false
      ∧ (getTopicID w.bot ≠ "" → (receiveNotification E w n).bot.postedTracks = [])
      ∧ (getTopicID w.bot = "" → receiveNotification E w n = w)
      ∧ ∀ (n2 : Notification) (s2 : SessionInfo), n2.Type' = NotificationTypeSessionStart →
          n2.Session = some s2 →
          topicCreations (receiveNotification E (receiveNotification E w n) n2)
            = topicCreations (receiveNotification E w n) + 1 := by
  have hne : ¬ (n.Type' = NotificationTypeSessionStart) := by rw [hty]; decide
  have hstep : receiveNotification E w n = handleSessionEnd E n w := by
    unfold receiveNotification
    rw [if_neg (by simp [hlive]), if_neg hne, if_pos hty]
  have hcore : getTopicID (handleSessionEnd E n w).bot = ""
      ∧ (handleSessionEnd E n w).panicked = false
      ∧ (getTopicID w.bot ≠ "" → (handleSessionEnd E n w).bot.postedTracks = [])
      ∧ (getTopicID w.bot = "" → handleSessionEnd E n w = w) := by
    unfold handleSessionEnd
    by_cases ht : getTopicID w.bot = ""
    · simp [ht, hlive]
    · simp only [ht, if_false, hs, sendToTopic_snd]
      simp [setTopicID, getTopicID, MapOf.Clear, hlive]
  rw [hstep]
  refine ⟨hcore.1, hcore.2.1, hcore.2.2.1, hcore.2.2.2, ?_⟩
  intro n2 s2 h2 hs2
  have : receiveNotification E (handleSessionEnd E n w) n2
      = handleSessionStart E n2 (handleSessionEnd E n w) := by
    unfold receiveNotification
    rw [if_neg (by simp [hcore.2.1]), if_pos h2]
  rw [this, handleSessionStart_creations]
  simp [hcore.1, hs2]

/-- Witness for C5: the SessionEnd that closes `topic-1`. -/
theorem sessionEnd_clears_witness :
    sampleActiveWorld.panicked = false
      ∧ getTopicID sampleActiveWorld.bot ≠ ""
      ∧ getTopicID (receiveNotification sampleEnv sampleActiveWorld sampleSessionEnd).bot = ""
      ∧ (receiveNotification sampleEnv sampleActiveWorld sampleSessionEnd).bot.postedTracks = [] :=
  ⟨by decide, by decide,
    (sessionEnd_clears sampleEnv sampleActiveWorld sampleSessionEnd sampleSession
      (by decide) (by decide) rfl).1,
    (sessionEnd_clears sampleEnv sampleActiveWorld sampleSessionEnd sampleSession
      (by decide) (by decide) rfl).2.2.1 (by decide)⟩

/-- Counterexample to C6: the same track id played in two successive sessions is sent
twice in one process run. -/
theorem nowPlaying_twice_across_sessions :
    nowPlayingSends "t1"
      (receiveNotifications sampleEnv (NewBot sampleConfig) [sampleSessionStart, sampleTrackStart, sampleSessionEnd, sampleSessionStart, sampleTrackStart]) = 2 := by
  decide

/-- C6, amended. Over any run, the number of now-playing sends for a track id is at
most one more than the number of sessions closed during the run (each closing send
marks a SessionEnd that cleared the dedup set). -/
theorem nowPlaying_bounded_by_sessions (E : Env) (w : World) (ns : List Notification)
    (id : String) :
    nowPlayingSends id (receiveNotifications E w ns) + closingSends w
      ≤ nowPlayingSends id w + closingSends (receiveNotifications E w ns) + 1 := by
  have h := receiveNotifications_budget E id ns w
  unfold sendBudget at h
  split at h <;> split at h <;> omega

/-- C7. A SessionEnd processed while the topic identifier is empty is a no-op: the
state is returned as it was, so no call is made and the topic identifier and the
dedup set are unchanged. -/
theorem handleSessionEnd_idle_noop (E : Env) (n : Notification) (w : World)
    (h : getTopicID w.bot = "") :
    handleSessionEnd E n w = w
      ∧ (handleSessionEnd E n w).calls = w.calls
      ∧ (handleSessionEnd E n w).bot.topicID = w.bot.topicID
      ∧ (handleSessionEnd E n w).bot.postedTracks = w.bot.postedTracks := by
  have : handleSessionEnd E n w = w := by simp [handleSessionEnd, h]
  simp [this]

/-- Witness for C7: a SessionEnd before any session. -/
theorem handleSessionEnd_idle_noop_witness :
    getTopicID (NewBot sampleConfig).bot = ""
      ∧ handleSessionEnd sampleEnv sampleSessionEnd (NewBot sampleConfig) = NewBot sampleConfig :=
  ⟨by decide, (handleSessionEnd_idle_noop sampleEnv sampleSessionEnd (NewBot sampleConfig) rfl).1⟩

/-- Counterexample to C8: a command whose only option is the empty string, from a
user without a token, calls Join and RequestTrack and stores the token. -/
theorem requestTrack_empty_value_forwarded :
    (requestTrack sampleEnv sampleCommandEmptyValue (NewBot sampleConfig)).calls
        = [Call.Join "alice" "u1", Call.Request "tok" "", Call.InteractionResponseEdit "i3" "ok"]
      ∧ (requestTrack sampleEnv sampleCommandEmptyValue (NewBot sampleConfig)).calls.countP isJoin = 1
      ∧ (requestTrack sampleEnv sampleCommandEmptyValue (NewBot sampleConfig)).calls.countP isRequest = 1
      ∧ (requestTrack sampleEnv sampleCommandEmptyValue (NewBot sampleConfig)).bot.tokens = [("u1", "tok")] := by
  decide

/-- C8, amended. A command with an empty option list makes no Join and no
RequestTrack call: its only call is the internal-error response, and the bot state,
token cache included, is unchanged. -/
theorem requestTrack_no_option_rejected (E : Env) (i : InteractionCreate) (w : World)
    (h : i.Data.Options = []) :
    (requestTrack E i w).calls = w.calls ++ [Call.InteractionResponseEdit i.ID msgInternalError]
      ∧ (requestTrack E i w).calls.countP isJoin = w.calls.countP isJoin
      ∧ (requestTrack E i w).calls.countP isRequest = w.calls.countP isRequest
      ∧ (requestTrack E i w).bot = w.bot := by
  rw [requestTrack_rejected E i w (Or.inr h)]
  simp [responseUpdate, List.countP_append, isJoin, isRequest]

/-- Witness for C8: a command without any option. -/
theorem requestTrack_no_option_rejected_witness :
    sampleCommandNoOption.Data.Options = []
      ∧ (requestTrack sampleEnv sampleCommandNoOption (NewBot sampleConfig)).calls
          = [Call.InteractionResponseEdit "i4" msgInternalError] :=
  ⟨rfl, (requestTrack_no_option_rejected sampleEnv sampleCommandNoOption (NewBot sampleConfig) rfl).1⟩

/-- C9. Token reuse. When a command of user `uid` misses the cache and its Join
succeeds with `tok`, the token is stored and passed to RequestTrack; after any
further commands, a later command `d` of that user makes no Join call, passes
`tok` to every RequestTrack call it makes (one, when it has an option) and leaves
the cache as it is. A command whose Join fails stores nothing and makes no
RequestTrack call. -/
theorem token_reuse (E : Env) (w0 : World) (c d : InteractionCreate)
    (mid : List InteractionCreate) (uid tok : String)
    (o : ApplicationCommandInteractionDataOption) (os : List ApplicationCommandInteractionDataOption)
    (hc : (callerOf c).1 = uid) (hd : (callerOf d).1 = uid) (huid : uid ≠ "")
    (hopt : c.Data.Options = o :: os)
    (hmiss : MapOf.Load w0.bot.tokens uid = none)
    (hjoin : E.Join w0.calls.length = some tok) :
    (∃ r, (requestTrack E c w0).calls
        = w0.calls ++ [Call.Join (callerOf c).2 uid, Call.Request tok o.Value,
            Call.InteractionResponseEdit c.ID r])
      ∧ MapOf.Load (requestTrack E c w0).bot.tokens uid = some tok
      ∧ MapOf.Load (requestTrackAll E (requestTrack E c w0) mid).bot.tokens uid = some tok
      ∧ (requestTrack E d (requestTrackAll E (requestTrack E c w0) mid)).bot.tokens
          = (requestTrackAll E (requestTrack E c w0) mid).bot.tokens
      ∧ (∃ new, (requestTrack E d (requestTrackAll E (requestTrack E c w0) mid)).calls
            = (requestTrackAll E (requestTrack E c w0) mid).calls ++ new
          ∧ new.countP isJoin = 0
          ∧ (∀ l t, Call.Request l t ∈ new → l = tok)
          ∧ (∀ p ps, d.Data.Options = p :: ps → Call.Request tok p.Value ∈ new))
      ∧ (∀ (wf : World) (f : InteractionCreate),
          MapOf.Load wf.bot.tokens (callerOf f).1 = none → E.Join wf.calls.length = none →
            (requestTrack E f wf).bot.tokens = wf.bot.tokens
              ∧ (requestTrack E f wf).calls.countP isRequest = wf.calls.countP isRequest) := by
  have hcu : (callerOf c).1 ≠ "" := by rw [hc]; exact huid
  have hdu : (callerOf d).1 ≠ "" := by rw [hd]; exact huid
  have hcm : MapOf.Load w0.bot.tokens (callerOf c).1 = none := by rw [hc]; exact hmiss
  have hfirst := requestTrack_miss E c w0 o os hcu hopt hcm
  rw [hjoin] at hfirst
  simp only [hc] at hfirst
  have hstored : MapOf.Load (requestTrack E c w0).bot.tokens uid = some tok := by
    rw [hfirst]; exact Load_Store_self _ _ _
  have hlater := requestTrackAll_keeps_token E uid tok mid _ hstored
  refine ⟨⟨_, by rw [hfirst]⟩, hstored, hlater, ?_, ?_, ?_⟩
  · cases ho : d.Data.Options with
    | nil => rw [requestTrack_rejected E d _ (Or.inr ho)]; rfl
    | cons p ps =>
      rw [requestTrack_hit E d _ tok p ps hdu ho (by rw [hd]; exact hlater),
        requestTrackForward_eq]
  · cases ho : d.Data.Options with
    | nil =>
      refine ⟨[Call.InteractionResponseEdit d.ID msgInternalError], ?_, ?_, ?_, ?_⟩
      · rw [requestTrack_rejected E d _ (Or.inr ho)]; rfl
      · simp [isJoin]
      · intro l t hmem; simp at hmem
      · intro p ps hp; cases hp
    | cons p ps =>
      refine ⟨[Call.Request tok p.Value, Call.InteractionResponseEdit d.ID
        (forwardResponse E (requestTrackAll E (requestTrack E c w0) mid).calls.length)], ?_, ?_, ?_, ?_⟩
      · rw [requestTrack_hit E d _ tok p ps hdu ho (by rw [hd]; exact hlater),
          requestTrackForward_eq]
      · simp [isJoin]
      · intro l t hmem
        simp at hmem
        exact hmem.1
      · intro p' ps' hp
        cases hp
        simp
  · intro wf f hfm hfj
    by_cases hu : (callerOf f).1 = ""
    · rw [requestTrack_rejected E f wf (Or.inl hu)]
      simp [responseUpdate, List.countP_append, isRequest]
    · cases ho : f.Data.Options with
      | nil =>
        rw [requestTrack_rejected E f wf (Or.inr ho)]
        simp [responseUpdate, List.countP_append, isRequest]
      | cons p ps =>
        rw [requestTrack_miss E f wf p ps hu ho hfm, hfj]
        simp [List.countP_append, isRequest]

/-- Witness for C9: two commands of the same user with other commands in between. -/
theorem token_reuse_witness :
    MapOf.Load (NewBot sampleConfig).bot.tokens "u1" = none
      ∧ MapOf.Load (requestTrack sampleEnv sampleCommandA (NewBot sampleConfig)).bot.tokens "u1"
          = some "tok"
      ∧ MapOf.Load (requestTrackAll sampleEnv
            (requestTrack sampleEnv sampleCommandA (NewBot sampleConfig))
            [sampleCommandEmptyValue, sampleCommandNoOption]).bot.tokens "u1" = some "tok" :=
  ⟨rfl,
    (token_reuse sampleEnv (NewBot sampleConfig) sampleCommandA sampleCommandB
      [sampleCommandEmptyValue, sampleCommandNoOption] "u1" "tok" _ _ rfl rfl (by decide) rfl rfl
      rfl).2.1,
    (token_reuse sampleEnv (NewBot sampleConfig) sampleCommandA sampleCommandB
      [sampleCommandEmptyValue, sampleCommandNoOption] "u1" "tok" _ _ rfl rfl (by decide) rfl rfl
      rfl).2.2.1⟩

/-- C10, on the code: two executions of `requestTrack` for the same unseen user, with
both cache loads scheduled before both stores, make two Join calls and pass
different tokens to RequestTrack. -/
theorem requestTrack_race_two_joins :
    (runSchedule twoListenerEnv sampleCommandA sampleCommandB [true, false, true, false, true, false, true, false, true, false]
        ⟨Pc.start, Pc.start, NewBot sampleConfig⟩)
      = ⟨Pc.done, Pc.done,
          { (NewBot sampleConfig) with
            calls := [Call.Join "alice" "u1", Call.Join "alice" "u1",
              Call.Request "listener-0" "https://open.spotify.com/track/1",
              Call.Request "listener-1" "https://open.spotify.com/track/2",
              Call.InteractionResponseEdit "i1" "ok", Call.InteractionResponseEdit "i2" "ok"],
            bot := { (NewBot sampleConfig).bot with tokens := [("u1", "listener-1")] } }⟩ := by
  decide

/-- C11. For every input, `formatSessionEnd` returns "終了時間未定" when the input is
empty or `time.Parse(time.RFC3339, _)` rejects it; otherwise it returns the two-digit
hour, a colon and the two-digit minute of the parsed instant on the local wall clock
(hour below 24, minute below 60), immediately followed by "終了予定", which is never
the undetermined text. -/
theorem formatSessionEnd_cases (E : Env) (endTime : String) :
    ((endTime = "" ∨ E.timeParseRFC3339 endTime = none) →
        formatSessionEnd E endTime = "終了時間未定")
      ∧ (∀ t : Int, endTime ≠ "" → E.timeParseRFC3339 endTime = some t →
          formatSessionEnd E endTime
              = String.mk (clockDigits (t + E.zoneOffset t)) ++ "終了予定"
            ∧ ((t + E.zoneOffset t) % 86400).toNat / 3600 < 24
            ∧ ((t + E.zoneOffset t) % 86400).toNat % 3600 / 60 < 60
            ∧ formatSessionEnd E endTime ≠ "終了時間未定") := by
  constructor
  · intro h
    unfold formatSessionEnd
    by_cases he : endTime = ""
    · simp [he, msgTimeUndetermined]
    · cases h with
      | inl h => exact absurd h he
      | inr h => simp [he, h, msgTimeUndetermined]
  · intro t he hp
    have hlt := secOfDay_lt (t + E.zoneOffset t)
    have hval : formatSessionEnd E endTime
        = String.mk (clockDigits (t + E.zoneOffset t)) ++ "終了予定" := by
      unfold formatSessionEnd
      simp only [he, if_false, hp, msgTimeScheduled, timeFormatDisplay_eq]
    refine ⟨hval, by omega, by omega, ?_⟩
    rw [hval]
    intro heq
    have hlen := congrArg String.length heq
    have h1 : (String.mk (clockDigits (t + E.zoneOffset t)) ++ "終了予定").length = 9 := by
      rw [String.length_append]; rfl
    have h2 : "終了時間未定".length = 6 := by decide
    rw [h1, h2] at hlen
    exact absurd hlen (by decide)

/-- Witness for C11: the empty input, a malformed input, and 10:30 UTC shown nine
hours ahead. -/
theorem formatSessionEnd_cases_witness :
    formatSessionEnd sampleClockEnv "" = "終了時間未定"
      ∧ formatSessionEnd sampleClockEnv "tomorrow" = "終了時間未定"
      ∧ formatSessionEnd sampleClockEnv "2024-01-01T10:30:00Z" = "19:30終了予定" :=
  ⟨(formatSessionEnd_cases sampleClockEnv "").1 (Or.inl rfl),
    (formatSessionEnd_cases sampleClockEnv "tomorrow").1 (Or.inr (by decide)),
    ((formatSessionEnd_cases sampleClockEnv "2024-01-01T10:30:00Z").2 1704105000
      (by decide) (by decide)).1⟩

/-- C12. Adapter mapping. One iteration of the receive loop appends at most one
notification to the channel. It is a SessionStart exactly when the kind is initial
state or changed state and the session state is running, a SessionEnd exactly when
the kind is one of these and the session state is terminated, a TrackStart exactly
when the kind is changed track and the track state is started; nothing is appended
in every other case. What is appended carries the snapshots of the event. -/
theorem Subscribe_mapping (m : v1.Notification) (q : List Notification) :
    SubscribeReceive m q = q ++ SubscribeReceive m []
      ∧ (SubscribeReceive m []).length ≤ 1
      ∧ ((∃ n ∈ SubscribeReceive m [], n.Type' = NotificationTypeSessionStart) ↔
          (m.Type' = v1.NotificationType.NOTIFICATION_TYPE_INITIAL_STATE
              ∨ m.Type' = v1.NotificationType.NOTIFICATION_TYPE_CHANGE_STATE)
            ∧ SessionInfo.GetState m.SessionInfo = SessionState.SESSION_STATE_RUNNING)
      ∧ ((∃ n ∈ SubscribeReceive m [], n.Type' = NotificationTypeSessionEnd) ↔
          (m.Type' = v1.NotificationType.NOTIFICATION_TYPE_INITIAL_STATE
              ∨ m.Type' = v1.NotificationType.NOTIFICATION_TYPE_CHANGE_STATE)
            ∧ SessionInfo.GetState m.SessionInfo = SessionState.SESSION_STATE_TERMINATED)
      ∧ ((∃ n ∈ SubscribeReceive m [], n.Type' = NotificationTypeTrackStart) ↔
          m.Type' = v1.NotificationType.NOTIFICATION_TYPE_CHANGE_TRACK
            ∧ TrackInfo.GetState m.TrackInfo = TrackState.TRACK_STATE_STARTED)
      ∧ (SubscribeReceive m [] = [] ↔
          ¬ ((m.Type' = v1.NotificationType.NOTIFICATION_TYPE_INITIAL_STATE
                  ∨ m.Type' = v1.NotificationType.NOTIFICATION_TYPE_CHANGE_STATE)
                ∧ (SessionInfo.GetState m.SessionInfo = SessionState.SESSION_STATE_RUNNING
                  ∨ SessionInfo.GetState m.SessionInfo = SessionState.SESSION_STATE_TERMINATED)
              ∨ m.Type' = v1.NotificationType.NOTIFICATION_TYPE_CHANGE_TRACK
                ∧ TrackInfo.GetState m.TrackInfo = TrackState.TRACK_STATE_STARTED))
      ∧ (∀ n ∈ SubscribeReceive m [],
          (n.Type' = NotificationTypeSessionStart ∨ n.Type' = NotificationTypeSessionEnd
              ∨ n.Type' = NotificationTypeTrackStart)
            ∧ n.Session = m.SessionInfo ∧ n.Track = m.TrackInfo ∧ n.Error = none) := by
  unfold SubscribeReceive
  cases hk : m.Type' <;> cases hs : SessionInfo.GetState m.SessionInfo <;>
    cases ht : TrackInfo.GetState m.TrackInfo <;>
    simp [NotificationTypeSessionStart, NotificationTypeSessionEnd, NotificationTypeTrackStart]

/-- C13. After `postNowplaying` the track id carries the dedup marker, whether the
send succeeded, failed at the platform or was refused for want of a topic (the
error is returned, the marker stays). The marker survives every run in which no
SessionEnd clears the set, a topic creation included, and a TrackStart for the same
id processed then leaves the state as it is: no send. -/
theorem marker_survives_failed_send (E : Env) (w : World) (t t' : TrackInfo)
    (s : Option SessionInfo) (mid : List Notification) (n' : Notification)
    (hmid : countSteps E clearsDedup (postNowplaying E t s w).2 mid = 0)
    (hty : n'.Type' = NotificationTypeTrackStart) (htr : n'.Track = some t')
    (hid : t'.TrackId = t.TrackId) :
    isPosted (postNowplaying E t s w).2 t.TrackId = true
      ∧ isPosted (receiveNotifications E (postNowplaying E t s w).2 mid) t.TrackId = true
      ∧ receiveNotification E (receiveNotifications E (postNowplaying E t s w).2 mid) n'
          = receiveNotifications E (postNowplaying E t s w).2 mid
      ∧ (∀ si, s = some si → isPosted w t.TrackId = false →
          (getTopicID w.bot = "" →
              (postNowplaying E t s w).1 = some "topicID is not set"
                ∧ (postNowplaying E t s w).2.calls = w.calls)
            ∧ (getTopicID w.bot ≠ "" →
              (postNowplaying E t s w).2.calls
                  = w.calls ++ [Call.ChannelMessageSendComplex (SendOrigin.nowPlaying t.TrackId)
                      (getTopicID w.bot) (createNowPlayingMessage t si)]
                ∧ ((postNowplaying E t s w).1 = none
                    ↔ E.ChannelMessageSendComplex w.calls.length = true))) := by
  have h1 := postNowplaying_marks E t s w
  have h2 := receiveNotifications_keeps E t.TrackId mid _ h1 hmid
  refine ⟨h1, h2, ?_, ?_⟩
  · exact trackStart_posted_ignored E _ n' t' hty htr (by rw [hid]; exact h2)
  · intro si hs hfresh
    subst hs
    exact postNowplaying_fresh E t si w hfresh

/-- Witness for C13: a track posted while Idle, then a SessionStart that creates the
topic, then the same track again. -/
theorem marker_survives_failed_send_witness :
    isPosted (NewBot sampleConfig) "t1" = false
      ∧ getTopicID (NewBot sampleConfig).bot = ""
      ∧ getTopicID (receiveNotifications sampleEnv
          (postNowplaying sampleEnv sampleTrack (some sampleSession) (NewBot sampleConfig)).2
          [sampleSessionStart]).bot = "topic-1"
      ∧ receiveNotification sampleEnv
          (receiveNotifications sampleEnv
            (postNowplaying sampleEnv sampleTrack (some sampleSession) (NewBot sampleConfig)).2
            [sampleSessionStart]) sampleTrackStart
          = receiveNotifications sampleEnv
            (postNowplaying sampleEnv sampleTrack (some sampleSession) (NewBot sampleConfig)).2
            [sampleSessionStart] :=
  ⟨by decide, by decide, by decide,
    (marker_survives_failed_send sampleEnv (NewBot sampleConfig) sampleTrack sampleTrack
      (some sampleSession) [sampleSessionStart] sampleTrackStart (by decide) rfl rfl rfl).2.2.1⟩

/-- C14, on the code: a changed-track event whose track has started and which has no
session snapshot is mapped to a TrackStart with a nil session, and processing it
dereferences the nil session in `createNowPlayingMessage`: the process panics. -/
theorem trackStart_without_session_panics :
    SubscribeReceive sampleWireTrackOnly [] = [trackStartOf none sampleTrack]
      ∧ sampleActiveWorld.panicked = false
      ∧ (receiveNotifications sampleEnv sampleActiveWorld
          (SubscribeReceive sampleWireTrackOnly [])).panicked = true
      ∧ (receiveNotifications sampleEnv (NewBot sampleConfig)
          (SubscribeReceive sampleWireTrackOnly [])).panicked = true := by
  decide

end Bot19
